import Mathlib

/-!
Verification of the Reeva Instagram ingestion pipeline.

Shallow embedding of the core TypeScript modules:
  * `src/lib/instagram/webhook-parser.ts` — webhook payload decoder
  * `src/lib/instagram/utils.ts`          — store adapters, token service, retrying sender
  * `src/lib/instagram/store-media.ts`    — media extraction and storage
  * `src/lib/instagram/ingestion.ts`      — ingestion orchestrator (`src/unnamed/part_004`)
  * `src/app/api/auth/verify-instagram/route.ts` — token consumption
  * the QStash delivery bridge (`src/unnamed/part_002`)

JavaScript dynamic values are modelled by `JsValue`; a thrown `TypeError`
is modelled by `Except.error`.  Database tables are lists of rows and every
storage call is explicit state passing; the outcomes of outbound network
calls (Instagram sends, queue publishes) are supplied by an environment
record so that theorems can quantify over them.
-/

set_option autoImplicit false

namespace Reeva

/-- A JavaScript runtime value (the subset the webhook decoder can meet). -/
inductive JsValue where
  | undefined : JsValue
  | null : JsValue
  | bool : Bool → JsValue
  | num : Int → JsValue
  | str : String → JsValue
  | arr : List JsValue → JsValue
  | obj : List (String × JsValue) → JsValue
deriving Repr

/-- First-match field lookup in an object literal. -/
def lookupField (fields : List (String × JsValue)) (key : String) : Option JsValue :=
  match fields with
  | [] => none
  | (k, v) :: rest => if k = key then some v else lookupField rest key

/-- `v.p` — property access; throws `TypeError` on `null`/`undefined`,
yields `undefined` for absent fields and for primitive receivers. -/
def getProp : JsValue → String → Except String JsValue
  | .undefined, p => .error ("TypeError: cannot read properties of undefined, reading " ++ p)
  | .null, p => .error ("TypeError: cannot read properties of null, reading " ++ p)
  | .obj fields, p => .ok ((lookupField fields p).getD .undefined)
  | _, _ => .ok .undefined

/-- `v?.p` — optional-chaining access, total. -/
def jsGetOpt (v : JsValue) (p : String) : JsValue :=
  match v with
  | .obj fields => (lookupField fields p).getD .undefined
  | _ => .undefined

/-- JavaScript truthiness. -/
def truthy : JsValue → Bool
  | .undefined => false
  | .null => false
  | .bool b => b
  | .num n => n != 0
  | .str s => s != ""
  | .arr _ => true
  | .obj _ => true

/-- `a || b`. -/
def jsOr (a b : JsValue) : JsValue := if truthy a then a else b

/-- `v === "s"` for a string literal. -/
def strictEqStr (v : JsValue) (s : String) : Bool :=
  match v with
  | .str t => t == s
  | _ => false

/-- `v === true` (used for `is_echo === true`). -/
def isTrueLit : JsValue → Bool
  | .bool true => true
  | _ => false

/-- `Array.isArray(v)`. -/
def isArray : JsValue → Bool
  | .arr _ => true
  | _ => false

/-- The element list of an array value. -/
def elemsOf : JsValue → List JsValue
  | .arr xs => xs
  | _ => []

mutual
/-- `String(v)` — JavaScript string coercion. -/
def jsToString : JsValue → String
  | .undefined => "undefined"
  | .null => "null"
  | .bool true => "true"
  | .bool false => "false"
  | .num n => toString n
  | .str s => s
  | .arr xs => String.intercalate "," (jsJoinElems xs)
  | .obj _ => "[object Object]"

/-- Elements of `Array.prototype.toString`; `null`/`undefined` print empty. -/
def jsJoinElems : List JsValue → List String
  | [] => []
  | .null :: rest => "" :: jsJoinElems rest
  | .undefined :: rest => "" :: jsJoinElems rest
  | v :: rest => jsToString v :: jsJoinElems rest
end

/-- `for (x of v)` — iteration; arrays and strings are iterable, all other
values raise a `TypeError`. -/
def iterateJs : JsValue → Except String (List JsValue)
  | .arr xs => .ok xs
  | .str s => .ok (s.data.map (fun c => .str (String.singleton c)))
  | _ => .error "TypeError: value is not iterable"

/-- A normalized messaging event as produced by `parseMessagingEvents`
(`src/lib/instagram/webhook-parser.ts`).  Fields keep the dynamic values
the decoder copies out of the payload; `timestamp` has been coerced by
`String(...)`. -/
structure ParsedEvent where
  mid : JsValue
  sender_ig_id : JsValue
  recipient_ig_id : JsValue
  timestamp : String
  message_text : JsValue
  attachments : JsValue
deriving Repr

/-- One element of an `entry[].messaging[]` array
(`webhook-parser.ts` lines 32-52): drop echo messages and messages
without a `mid`, otherwise build the normalized event. -/
def parseOneMessaging (now : Nat) (msg : JsValue) : Except String (Option ParsedEvent) := do
  let message ← getProp msg "message"
  let isEcho ← if truthy message then getProp message "is_echo" else pure .undefined
  if truthy message && isTrueLit isEcho then
    return none
  let mid ← if truthy message then getProp message "mid" else pure .undefined
  if !truthy message || !truthy mid then
    return none
  let sender ← getProp msg "sender"
  let recipient ← getProp msg "recipient"
  let timestamp ← getProp msg "timestamp"
  let text ← getProp message "text"
  let attachments ← getProp message "attachments"
  return some
    { mid := mid
      sender_ig_id := jsOr (jsGetOpt sender "id") (.str "")
      recipient_ig_id := jsOr (jsGetOpt recipient "id") (.str "")
      timestamp := if truthy timestamp then jsToString timestamp else toString now
      message_text := jsOr text .null
      attachments := jsOr attachments .null }

/-- The inner `for (const msg of entry.messaging)` loop. -/
def parseMessagingList (now : Nat) : List JsValue → Except String (List ParsedEvent)
  | [] => .ok []
  | m :: rest => do
    let e ← parseOneMessaging now m
    let tail ← parseMessagingList now rest
    match e with
    | none => pure tail
    | some ev => pure (ev :: tail)

/-- Events contributed by one element of `body.entry`. -/
def parseEntryEvents (now : Nat) (entry : JsValue) : Except String (List ParsedEvent) := do
  let messaging ← getProp entry "messaging"
  if truthy messaging && isArray messaging then
    parseMessagingList now (elemsOf messaging)
  else
    pure []

/-- The outer `for (const entry of body.entry)` loop. -/
def parseEntriesEvents (now : Nat) : List JsValue → Except String (List ParsedEvent)
  | [] => .ok []
  | e :: rest => do
    let evs ← parseEntryEvents now e
    let tail ← parseEntriesEvents now rest
    pure (evs ++ tail)

/-- The test-shape block of `parseMessagingEvents` (`webhook-parser.ts`
lines 14-26): the single-event `field`/`value` format of the Meta developer
panel. -/
def parseTestShapeEvents (now : Nat) (body : JsValue) : Except String (List ParsedEvent) := do
  let field ← getProp body "field"
  if strictEqStr field "messages" then do
    let value ← getProp body "value"
    if truthy value then do
      let message ← getProp value "message"
      let mid ← if truthy message then getProp message "mid" else pure .undefined
      if truthy message && truthy mid then do
        let sender ← getProp value "sender"
        let recipient ← getProp value "recipient"
        let timestamp ← getProp value "timestamp"
        let text ← getProp message "text"
        let attachments ← getProp message "attachments"
        pure [{ mid := mid
                sender_ig_id := jsOr (jsGetOpt sender "id") (.str "")
                recipient_ig_id := jsOr (jsGetOpt recipient "id") (.str "")
                timestamp := if truthy timestamp then jsToString timestamp else toString now
                message_text := jsOr text .null
                attachments := jsOr attachments .null }]
      else pure []
    else pure []
  else pure []

/-- The standard-shape block of `parseMessagingEvents` (`webhook-parser.ts`
lines 29-55): `object`/`entry[].messaging[]`. -/
def parseStandardShapeEvents (now : Nat) (body : JsValue) :
    Except String (List ParsedEvent) := do
  let object ← getProp body "object"
  if strictEqStr object "instagram" then do
    let entry ← getProp body "entry"
    if truthy entry then do
      let entries ← iterateJs entry
      parseEntriesEvents now entries
    else pure []
  else pure []

/-- `parseMessagingEvents(body)` (`webhook-parser.ts` lines 10-58): the two
blocks run in sequence, appending to one event list.  `now` supplies
`Date.now()` for the timestamp fallback of last resort.  A thrown
`TypeError` is `Except.error`. -/
def parseMessagingEvents (now : Nat) (body : JsValue) : Except String (List ParsedEvent) := do
  let testEvents ← parseTestShapeEvents now body
  let igEvents ← parseStandardShapeEvents now body
  pure (testEvents ++ igEvents)

/-! ## Data model (§3): rows of the logical tables.

Timestamps are milliseconds since the Unix epoch (the code stores ISO
strings derived from exactly these millisecond values; we keep the
numeric form). -/

/-- Row of `instagram_profiles`. -/
structure InstagramProfileRow where
  ig_id : String
  username : Option String
  display_name : Option String
  profile_pic_url : Option String
  connected_user_id : Option String
  connected_at : Option Nat
  created_at : Nat
  updated_at : Nat
deriving Repr

/-- Row of `messages`. -/
structure MessageRow where
  id : String
  sender_ig_id : String
  recipient_ig_id : String
  message_text : Option String
  attachments : Option JsValue
  received_at : Nat
  processed : Bool
deriving Repr

/-- Row of `verification_tokens`. -/
structure VerificationTokenRow where
  token_hash : String
  ig_id : String
  expires_at : Nat
  consumed : Bool
  created_by_event_id : String
deriving Repr, DecidableEq

/-- Row of `outbound_messages`; `id` is the generated primary key,
modelled as the row index at creation time. -/
structure OutboundMessageRow where
  id : Nat
  recipient_ig_id : String
  kind : String
  payload : String
  status : String
  attempts : Nat
  remote_message_id : Option String
  error : Option String
deriving Repr, DecidableEq

/-- Row of `media_items` (keyed by `(owner_user_id, media_id)`). -/
structure MediaItemRow where
  owner_user_id : String
  sender_ig_id : String
  owner_ig_id : String
  media_type : String
  media_id : String
  url : String
  title : Option String
deriving Repr, DecidableEq

/-- The backing store: one list of rows per logical table. -/
structure DB where
  profiles : List InstagramProfileRow
  messages : List MessageRow
  tokens : List VerificationTokenRow
  outbound : List OutboundMessageRow
  media : List MediaItemRow
deriving Repr

/-- Environment of one handler invocation: wall-clock time, the configured
base URL, the bytes `crypto.randomBytes(32)` yields, and the outcome of the
Instagram platform send on each attempt (attempt numbers start at 1). -/
structure Env where
  now : Nat
  baseUrl : String
  randBytes : List (Fin 256)
  sendDM : Nat → Except String String

/-- `InstagramProfileMeta` of `utils.ts`. -/
structure InstagramProfileMeta where
  username : Option String
  display_name : Option String
  profile_pic_url : Option String

/-- Truthiness of an optional string field (`if (partialMeta?.username) ...`). -/
def truthyStr : Option String → Bool
  | some s => s != ""
  | none => false

/-- `upsertInstagramProfile` (`utils.ts` lines 38-112): upsert keyed on
`ig_id`; on conflict merge the supplied non-empty meta fields and bump
`updated_at`, and return the resulting row. -/
def upsertInstagramProfile (env : Env) (igId : String) (partialMeta : InstagramProfileMeta)
    (db : DB) : InstagramProfileRow × DB :=
  match db.profiles.find? (fun p => p.ig_id == igId) with
  | some p =>
    let merged : InstagramProfileRow :=
      { p with
        username := if truthyStr partialMeta.username then partialMeta.username else p.username
        display_name :=
          if truthyStr partialMeta.display_name then partialMeta.display_name else p.display_name
        profile_pic_url :=
          if truthyStr partialMeta.profile_pic_url then partialMeta.profile_pic_url
          else p.profile_pic_url
        updated_at := env.now }
    (merged, { db with profiles := db.profiles.map (fun q => if q.ig_id == igId then merged else q) })
  | none =>
    let row : InstagramProfileRow :=
      { ig_id := igId
        username := if truthyStr partialMeta.username then partialMeta.username else none
        display_name := if truthyStr partialMeta.display_name then partialMeta.display_name else none
        profile_pic_url :=
          if truthyStr partialMeta.profile_pic_url then partialMeta.profile_pic_url else none
        connected_user_id := none
        connected_at := none
        created_at := env.now
        updated_at := env.now }
    (row, { db with profiles := db.profiles ++ [row] })

/-- Numeric value of a leading run of decimal digits; `none` when the first
character is not a digit. -/
def digitsVal (cs : List Char) : Option Nat :=
  let ds := cs.takeWhile (·.isDigit)
  if ds.isEmpty then none
  else some (ds.foldl (fun a c => a * 10 + (c.toNat - 48)) 0)

/-- `parseInt(s, 10)`: optional sign, leading digits, trailing junk ignored;
`none` models `NaN`. -/
def parseIntJS (s : String) : Option Int :=
  match s.data with
  | '-' :: rest => (digitsVal rest).map (fun n => -(n : Int))
  | '+' :: rest => (digitsVal rest).map (fun n => (n : Int))
  | cs => (digitsVal cs).map (fun n => (n : Int))

/-- `Date.UTC(2020, 0, 1)` in ms — lower bound of the timestamp sanity check. -/
def minValidMs : Int := 1577836800000

/-- `Date.UTC(2101, 0, 1)` in ms — a date has `getFullYear() ≤ 2100`
exactly when its ms value is below this bound (taking UTC wall clock). -/
def maxValidMsExclusive : Int := 4133980800000

/-- `String.prototype.trim()`: strip whitespace from both ends. -/
def jsTrim (s : String) : String :=
  String.mk (((s.data.dropWhile Char.isWhitespace).reverse.dropWhile
    Char.isWhitespace).reverse)

/-- Timestamp normalization of `insertMessageIfNotExists` (`utils.ts`
lines 127-147): trim, `parseInt`, treat 13-or-more characters as
milliseconds and fewer as seconds, and reject values outside the years
2020-2100; `none` models the thrown `Invalid timestamp` error. -/
def timestampToMs (timestamp : String) : Option Int :=
  let timestampStr := jsTrim timestamp
  match parseIntJS timestampStr with
  | none => none
  | some v =>
    let timestampMs := if timestampStr.length ≥ 13 then v else v * 1000
    if minValidMs ≤ timestampMs ∧ timestampMs < maxValidMsExclusive then some timestampMs
    else none

/-- `insertMessageIfNotExists` (`utils.ts` lines 117-192): idempotent insert
keyed on `mid`.  A unique-key conflict (code 23505) resolves by fetching the
existing row with `.single()`; an invalid timestamp throws. -/
def insertMessageIfNotExists (mid senderIgId recipientIgId : String)
    (messageText : Option String) (attachments : Option JsValue) (timestamp : String)
    (db : DB) : Except String (MessageRow × DB) :=
  match timestampToMs timestamp with
  | none => .error ("Invalid timestamp: " ++ timestamp)
  | some timestampMs =>
    if (db.messages.filter (fun r => r.id == mid)).isEmpty then
      let row : MessageRow :=
        { id := mid
          sender_ig_id := senderIgId
          recipient_ig_id := recipientIgId
          message_text := messageText
          attachments := attachments
          received_at := timestampMs.toNat
          processed := false }
      .ok (row, { db with messages := db.messages ++ [row] })
    else
      match db.messages.filter (fun r => r.id == mid) with
      | [existing] => .ok (existing, db)
      | _ => .error "Failed to fetch existing message: multiple rows"

/-- Lowercase hex digit (Node `Buffer.toString('hex')`). -/
def hexDigitChar (n : Nat) : Char :=
  if n < 10 then Char.ofNat (48 + n) else Char.ofNat (87 + n)

/-- Uppercase hex digit (percent-encoding). -/
def hexDigitCharUpper (n : Nat) : Char :=
  if n < 10 then Char.ofNat (48 + n) else Char.ofNat (55 + n)

/-- Two lowercase hex characters per byte. -/
def bytesHexChars : List (Fin 256) → List Char
  | [] => []
  | b :: rest => hexDigitChar (b.val / 16) :: hexDigitChar (b.val % 16) :: bytesHexChars rest

/-- `Buffer.toString('hex')`. -/
def bytesToHex (bs : List (Fin 256)) : String := String.mk (bytesHexChars bs)

/-- Result of `createVerificationToken`. -/
structure TokenCreationResult where
  tokenPlain : String
  tokenHash : String
  expiresAt : Nat
deriving Repr

/-- One hour in milliseconds (`expiresAt.setHours(expiresAt.getHours() + 1)`). -/
def oneHourMs : Nat := 3600000

/-- `createVerificationToken` (`utils.ts` lines 197-234): hex-encode the 32
random bytes as the plaintext secret, store a row carrying its SHA-256 hash
(`sha` abstracts the hash function), `consumed = false`, expiry one hour from
now, and the triggering event id; return the plaintext to the caller only. -/
def createVerificationToken (sha : String → String) (env : Env) (igId eventId : String)
    (db : DB) : TokenCreationResult × DB :=
  let tokenPlain := bytesToHex env.randBytes
  let tokenHash := sha tokenPlain
  let expiresAt := env.now + oneHourMs
  let row : VerificationTokenRow :=
    { token_hash := tokenHash
      ig_id := igId
      expires_at := expiresAt
      consumed := false
      created_by_event_id := eventId }
  ({ tokenPlain := tokenPlain, tokenHash := tokenHash, expiresAt := expiresAt },
   { db with tokens := db.tokens ++ [row] })

/-- `trackOutboundMessage` (`utils.ts` lines 295-326): insert a tracking row
(`attempts = 0`, no remote id, no error) and return its generated id. -/
def trackOutboundMessage (recipientIgId kind payloadText status : String) (db : DB) :
    Nat × DB :=
  let rowId := db.outbound.length
  let row : OutboundMessageRow :=
    { id := rowId
      recipient_ig_id := recipientIgId
      kind := kind
      payload := payloadText
      status := status
      attempts := 0
      remote_message_id := none
      error := none }
  (rowId, { db with outbound := db.outbound ++ [row] })

/-- The partial-update record passed to `updateOutboundMessage`. -/
structure OutboundUpdate where
  status : Option String
  remote_message_id : Option String
  error : Option String
  attempts : Option Nat

/-- Apply the present fields of a partial update to a row. -/
def applyOutboundUpdate (u : OutboundUpdate) (r : OutboundMessageRow) : OutboundMessageRow :=
  { r with
    status := u.status.getD r.status
    remote_message_id :=
      match u.remote_message_id with
      | some v => some v
      | none => r.remote_message_id
    error :=
      match u.error with
      | some v => some v
      | none => r.error
    attempts := u.attempts.getD r.attempts }

/-- `updateOutboundMessage` (`utils.ts` lines 331-351): update the rows whose
`id` matches. -/
def updateOutboundMessage (messageId : Nat) (u : OutboundUpdate) (db : DB) : DB :=
  { db with
    outbound := db.outbound.map (fun r => if r.id == messageId then applyOutboundUpdate u r else r) }

/-- `min(1000 * 2^(attempt-1), 10000)` — exponential backoff capped at 10s. -/
def backoffDelay (attempt : Nat) : Nat := min (1000 * 2 ^ (attempt - 1)) 10000

/-- The shared `for (attempt = 1; attempt <= maxAttempts; attempt++)` retry
loop of `sendVerificationDM` and `sendAcknowledgementDM` (`utils.ts` lines
372-402 and 421-451).  `attempts` is the list of remaining attempt numbers
(`[1, 2, 3]` at entry); the returned list records the backoff sleeps
performed between attempts; the error case carries `lastError` (or the
given fallback message) — the `throw lastError` after the loop. -/
def runAttempts (send : Nat → Except String String) (outboundMessageId maxAttempts : Nat)
    (fallbackMessage : String) (attempts : List Nat) (lastError : Option String)
    (db : DB) (sleeps : List Nat) : Except String String × DB × List Nat :=
  match attempts with
  | [] => (.error (lastError.getD fallbackMessage), db, sleeps)
  | attempt :: rest =>
    match send attempt with
    | .ok remoteMessageId =>
      let db := updateOutboundMessage outboundMessageId
        { status := some "sent", remote_message_id := some remoteMessageId,
          error := none, attempts := some attempt } db
      (.ok remoteMessageId, db, sleeps)
    | .error e =>
      let delay := backoffDelay attempt
      let sleeps := if attempt < maxAttempts then sleeps ++ [delay] else sleeps
      let db := updateOutboundMessage outboundMessageId
        { status := some (if attempt == maxAttempts then "failed" else "pending"),
          remote_message_id := none, error := some e, attempts := some attempt } db
      runAttempts send outboundMessageId maxAttempts fallbackMessage rest (some e) db sleeps

/-- Bytes kept verbatim by `encodeURIComponent`:
`A-Z a-z 0-9 - _ . ! ~ * ' ( )`. -/
def isUnreservedByte (b : Nat) : Bool :=
  (65 ≤ b && b ≤ 90) || (97 ≤ b && b ≤ 122) || (48 ≤ b && b ≤ 57) ||
  b == 45 || b == 95 || b == 46 || b == 33 || b == 126 || b == 42 ||
  b == 39 || b == 40 || b == 41

/-- `encodeURIComponent`: percent-encode every UTF-8 byte outside the
unreserved set, uppercase hex. -/
def encodeURIComponent (s : String) : String :=
  String.join (s.toUTF8.toList.map (fun b =>
    let n := b.toNat
    if isUnreservedByte n then String.singleton (Char.ofNat n)
    else String.mk ['%', hexDigitCharUpper (n / 16), hexDigitCharUpper (n % 16)]))

/-- The verification DM body (`sendVerificationDM`, `utils.ts` lines 360-362). -/
def verificationMessageText (baseUrl igId tokenPlain : String) : String :=
  let verificationUrl :=
    baseUrl ++ "/verify?token=" ++ encodeURIComponent tokenPlain ++ "&ig_id=" ++
    encodeURIComponent igId
  "Hey — welcome to Reeva! It looks like you haven\x27t connected your Instagram account to Reeva yet. Click the link below to connect and view your saved reels and posts:\n\n" ++
    verificationUrl

/-- `sendVerificationDM` (`utils.ts` lines 356-403): create the tracking row
in `pending`, run up to 3 attempts, and return the remote and tracking ids
on success; the sleep trace of the retry loop is also returned. -/
def sendVerificationDM (env : Env) (igId tokenPlain : String) (db : DB) :
    Except String (String × Nat) × DB × List Nat :=
  let messageText := verificationMessageText env.baseUrl igId tokenPlain
  let tracked := trackOutboundMessage igId "verification" messageText "pending" db
  let outboundMessageId := tracked.1
  let looped :=
    runAttempts env.sendDM outboundMessageId 3 "Failed to send verification DM after retries"
      [1, 2, 3] none tracked.2 []
  (looped.1.map (fun remoteMessageId => (remoteMessageId, outboundMessageId)),
   looped.2.1, looped.2.2)

/-- The acknowledgement DM body (`sendAcknowledgementDM`, `utils.ts` line 411). -/
def acknowledgementMessageText : String :=
  "Hi! Send your reels and posts here and we\x27ll save them to your Reeva library."

/-- `sendAcknowledgementDM` (`utils.ts` lines 408-452): identical retry
structure with kind `acknowledgement`. -/
def sendAcknowledgementDM (env : Env) (igId : String) (db : DB) :
    Except String (String × Nat) × DB × List Nat :=
  let messageText := acknowledgementMessageText
  let tracked := trackOutboundMessage igId "acknowledgement" messageText "pending" db
  let outboundMessageId := tracked.1
  let looped :=
    runAttempts env.sendDM outboundMessageId 3 "Failed to send acknowledgement DM after retries"
      [1, 2, 3] none tracked.2 []
  (looped.1.map (fun remoteMessageId => (remoteMessageId, outboundMessageId)),
   looped.2.1, looped.2.2)

/-- `markMessageAsProcessed` (`utils.ts` lines 457-469). -/
def markMessageAsProcessed (messageId : String) (db : DB) : DB :=
  { db with
    messages := db.messages.map (fun r =>
      if r.id == messageId then { r with processed := true } else r) }

/-- Result of the Phase 3 hand-off. -/
structure Phase3Result where
  ok : Bool
deriving Repr, DecidableEq

/-- `enqueueForPhase3Processing` (`utils.ts` lines 474-496): the abstract
hand-off stub — logs and reports success for every input. -/
def enqueueForPhase3Processing (_messageRow : MessageRow)
    (_profileRow : InstagramProfileRow) : Phase3Result :=
  { ok := true }

/-- `IncomingMessagingEvent` of `ingestion.ts` (`src/unnamed/part_004`). -/
structure IncomingMessagingEvent where
  mid : String
  sender_ig_id : String
  recipient_ig_id : String
  timestamp : String
  message_text : Option String
  attachments : Option JsValue

/-- `event.message_text || null`. -/
def orNullStr : Option String → Option String
  | some s => if s != "" then some s else none
  | none => none

/-- `event.attachments || null` followed by the `if (attachments)` guard of
`insertMessageIfNotExists` — a falsy attachments value is not stored. -/
def orNullJs : Option JsValue → Option JsValue
  | some v => if truthy v then some v else none
  | none => none

/-- Result record of `handleIncomingMessagingEvent`. -/
structure HandleResult where
  success : Bool
  message : Option String
deriving Repr, DecidableEq

/-- `handleIncomingMessagingEvent` (`src/unnamed/part_004` lines 29-110),
parameterized by the Phase 3 hand-off so that both reported outcomes can be
examined: upsert profile, insert message idempotently, then branch on
`connected_user_id` — unverified: create a token and best-effort send the
verification DM (failure swallowed); verified: best-effort send the
acknowledgement DM, hand off, and mark processed only when the hand-off
reports ok.  Errors of the two persistence steps propagate. -/
def handleIncomingMessagingEventWith
    (phase3 : MessageRow → InstagramProfileRow → Phase3Result)
    (sha : String → String) (env : Env) (event : IncomingMessagingEvent) (db : DB) :
    Except String (HandleResult × DB) :=
  match insertMessageIfNotExists event.mid event.sender_ig_id event.recipient_ig_id
      (orNullStr event.message_text) (orNullJs event.attachments) event.timestamp
      (upsertInstagramProfile env event.sender_ig_id
        { username := none, display_name := none, profile_pic_url := none } db).2 with
  | .error e => .error e
  | .ok (messageRow, db1) =>
    match (upsertInstagramProfile env event.sender_ig_id
        { username := none, display_name := none, profile_pic_url := none } db).1.connected_user_id with
    | none =>
      .ok ({ success := true, message := some "Verification DM sent to unconnected user" },
           (sendVerificationDM env event.sender_ig_id
             (createVerificationToken sha env event.sender_ig_id event.mid db1).1.tokenPlain
             (createVerificationToken sha env event.sender_ig_id event.mid db1).2).2.1)
    | some _ =>
      if (phase3 messageRow
          (upsertInstagramProfile env event.sender_ig_id
            { username := none, display_name := none, profile_pic_url := none } db).1).ok then
        .ok ({ success := true, message := some "Message processed for connected user" },
             markMessageAsProcessed event.mid
               (sendAcknowledgementDM env event.sender_ig_id db1).2.1)
      else
        .ok ({ success := true, message := some "Message processed for connected user" },
             (sendAcknowledgementDM env event.sender_ig_id db1).2.1)

/-- The orchestrator as shipped: the hand-off is `enqueueForPhase3Processing`. -/
def handleIncomingMessagingEvent (sha : String → String) (env : Env)
    (event : IncomingMessagingEvent) (db : DB) : Except String (HandleResult × DB) :=
  handleIncomingMessagingEventWith enqueueForPhase3Processing sha env event db

/-! ## Media extraction and storage (`src/lib/instagram/store-media.ts`).
The TS interface types `media_id`/`url` as strings; `jsToString` realizes
that reading of the dynamic payload fields. -/

/-- `MediaAttachment` of `store-media.ts`. -/
structure MediaAttachment where
  media_type : String
  media_id : String
  url : String
  title : Option String
deriving Repr, DecidableEq

/-- `payload.title || null`. -/
def titleOf (payload : JsValue) : Option String :=
  let t := jsGetOpt payload "title"
  if truthy t then some (jsToString t) else none

/-- Loop body of `extractMediaFromAttachments` (lines 40-89): recognize
`ig_reel` and `ig_post` with complete payloads, skip everything else. -/
def extractMediaList : List JsValue → List MediaAttachment
  | [] => []
  | attachment :: rest =>
    let ty := jsGetOpt attachment "type"
    if !truthy ty then extractMediaList rest
    else if strictEqStr ty "ig_reel" then
      let payload := jsGetOpt attachment "payload"
      if truthy payload && truthy (jsGetOpt payload "reel_video_id") &&
          truthy (jsGetOpt payload "url") then
        { media_type := "reel"
          media_id := jsToString (jsGetOpt payload "reel_video_id")
          url := jsToString (jsGetOpt payload "url")
          title := titleOf payload } :: extractMediaList rest
      else extractMediaList rest
    else if strictEqStr ty "ig_post" then
      let payload := jsGetOpt attachment "payload"
      if truthy payload && truthy (jsGetOpt payload "ig_post_media_id") &&
          truthy (jsGetOpt payload "url") then
        { media_type := "post"
          media_id := jsToString (jsGetOpt payload "ig_post_media_id")
          url := jsToString (jsGetOpt payload "url")
          title := titleOf payload } :: extractMediaList rest
      else extractMediaList rest
    else extractMediaList rest

/-- `extractMediaFromAttachments` (`store-media.ts` lines 33-92): empty
unless the attachments value is an array. -/
def extractMediaFromAttachments (attachments : JsValue) : List MediaAttachment :=
  if isArray attachments then extractMediaList (elemsOf attachments) else []

/-- `storeMediaItems` (`store-media.ts` lines 99-239): no-op for an
unconnected profile; per extracted item, skip when a row for
`(owner_user_id, media_id)` already exists (`maybeSingle`, with a
multi-row result treated as a logged failure and skipped), otherwise
insert. -/
def storeMediaItems (event : IncomingMessagingEvent) (profileRow : InstagramProfileRow)
    (db : DB) : DB :=
  match profileRow.connected_user_id with
  | none => db
  | some uid =>
    let mediaItems := extractMediaFromAttachments ((event.attachments).getD .null)
    mediaItems.foldl (fun db media =>
      match db.media.filter (fun r => r.owner_user_id == uid && r.media_id == media.media_id) with
      | [] =>
        { db with
          media := db.media ++
            [{ owner_user_id := uid
               sender_ig_id := event.sender_ig_id
               owner_ig_id := profileRow.ig_id
               media_type := media.media_type
               media_id := media.media_id
               url := media.url
               title := media.title }] }
      | _ => db) db

/-! ## Token consumption (`src/app/api/auth/verify-instagram/route.ts`). -/

/-- Outcome of the token-consumption POST, restricted to the consume core
(the authenticated-session guard and body validation sit upstream). -/
inductive ConsumeOutcome where
  | success : ConsumeOutcome
  | notFound : ConsumeOutcome
  | expired : ConsumeOutcome
deriving Repr, DecidableEq

/-- The consume sequence of `POST /api/auth/verify-instagram` (lines 37-77
and 126-156): hash the supplied plaintext, look up by
`(token_hash, ig_id, consumed = false)` with `.single()` (anything but
exactly one row is the invalid-token 400), reject with the expired 400 when
`expires_at < now` leaving the row untouched, otherwise set
`consumed = true` on the matching hash and link the profile
(`connected_user_id`, `connected_at`; `fetchedUsername` is the best-effort
Graph-API display lookup). -/
def consumeVerificationToken (sha : String → String) (now : Nat) (userId : String)
    (fetchedUsername : Option String) (tokenPlain igId : String) (db : DB) :
    ConsumeOutcome × DB :=
  match db.tokens.filter (fun t =>
      t.token_hash == sha tokenPlain && t.ig_id == igId && t.consumed == false) with
  | [tokenData] =>
    if tokenData.expires_at < now then (.expired, db)
    else
      let db := { db with
        tokens := db.tokens.map (fun (r : VerificationTokenRow) =>
          if r.token_hash == sha tokenPlain then { r with consumed := true } else r) }
      let db := { db with
        profiles := db.profiles.map (fun (p : InstagramProfileRow) =>
          if p.ig_id == igId then
            { p with
              connected_user_id := some userId
              connected_at := some now
              updated_at := now
              username := if truthyStr fetchedUsername then fetchedUsername else p.username }
          else p) }
      (.success, db)
  | _ => (.notFound, db)

/-! ## Delivery queue bridge (`src/unnamed/part_002`). -/

/-- One `qstash.publishJSON` call as issued by the bridge. -/
structure PublishAttempt where
  url : String
  deduplicationId : String
  body : IncomingMessagingEvent
  retries : Nat
  timeout : Nat

/-- Environment of the bridge: the configured base URL and QStash token
(`""` models an unset variable, which is falsy), and the outcome of each
publish call (an error models both a rejected publish and the 3-second
client-side timeout). -/
structure QueueEnv where
  baseUrl : String
  qstashToken : String
  publishResult : IncomingMessagingEvent → Except String String

/-- The per-event closure of `forwardToInternalIngestion` (lines 106-168):
build the client (a missing token throws, caught by the per-event catch),
publish with the deterministic deduplication id `ig_msg_<mid>`, and swallow
any failure after logging.  Returns the attempt actually issued (if any)
and whether it succeeded. -/
def publishOneEvent (qenv : QueueEnv) (consumerUrl : String) (event : IncomingMessagingEvent) :
    Option PublishAttempt × Bool :=
  if qenv.qstashToken == "" then (none, false)
  else
    let attempt : PublishAttempt :=
      { url := consumerUrl
        deduplicationId := "ig_msg_" ++ event.mid
        body := event
        retries := 3
        timeout := 30 }
    match qenv.publishResult event with
    | .ok _ => (some attempt, true)
    | .error _ => (some attempt, false)

/-- `forwardToInternalIngestion` (`src/unnamed/part_002` lines 86-173):
throw when the base URL is unset, otherwise publish every event to the
fixed consumer endpoint and wait for all attempts to settle
(`Promise.allSettled`) — publish failures never escalate. -/
def forwardToInternalIngestion (qenv : QueueEnv) (events : List IncomingMessagingEvent) :
    Except String (List (Option PublishAttempt × Bool)) :=
  if qenv.baseUrl == "" then .error "Base URL not configured"
  else
    let consumerUrl := qenv.baseUrl ++ "/api/qstash/instagram-ingestion"
    .ok (events.map (publishOneEvent qenv consumerUrl))

/-! ## Derived notions and helper lemmas. -/

/-- `null` or `undefined` — the receivers on which property access throws. -/
def isNullish : JsValue → Bool
  | .null => true
  | .undefined => true
  | _ => false

/-- Payloads on which none of the decoder's property accesses or `for...of`
iterations can throw: the payload itself is not nullish, and whenever the
standard-shape branch is taken, `entry` is iterable and its elements and
their `messaging` elements are not nullish. -/
def safePayload (body : JsValue) : Prop :=
  isNullish body = false ∧
  (strictEqStr (jsGetOpt body "object") "instagram" = true →
    truthy (jsGetOpt body "entry") = true →
    ∃ entries, iterateJs (jsGetOpt body "entry") = .ok entries ∧
      ∀ e ∈ entries, isNullish e = false ∧
        ∀ m ∈ elemsOf (jsGetOpt e "messaging"), isNullish m = false)

/-- A standard-shape payload with a single entry carrying the given
`messaging` array. -/
def singleEntryPayload (msgs : List JsValue) : JsValue :=
  .obj [("object", .str "instagram"),
        ("entry", .arr [.obj [("messaging", .arr msgs)]])]

/-- A messaging element the decoder drops: an echo message
(`is_echo === true`) or one without a truthy `message.mid` (read
receipts and other non-content events). -/
def droppedMessaging (m : JsValue) : Bool :=
  if isNullish m then false
  else
    let message := jsGetOpt m "message"
    if truthy message then
      isTrueLit (jsGetOpt message "is_echo") || !truthy (jsGetOpt message "mid")
    else true

/-- Number of `messages` rows keyed by `mid`. -/
def msgCount (db : DB) (mid : String) : Nat :=
  (db.messages.filter (fun r => r.id == mid)).length

/-- `connected_user_id` of the stored profile for `igId` (`none` when the
profile is absent or unlinked). -/
def connectedUserOf (db : DB) (igId : String) : Option String :=
  match db.profiles.find? (fun p => p.ig_id == igId) with
  | some p => p.connected_user_id
  | none => none

theorem bytesHexChars_length (bs : List (Fin 256)) :
    (bytesHexChars bs).length = 2 * bs.length := by
  induction bs with
  | nil => rfl
  | cons b rest ih => simp [bytesHexChars, ih]; ring

theorem upsert_fields (env : Env) (igId : String) (meta : InstagramProfileMeta) (db : DB) :
    (upsertInstagramProfile env igId meta db).2.messages = db.messages ∧
    (upsertInstagramProfile env igId meta db).2.tokens = db.tokens ∧
    (upsertInstagramProfile env igId meta db).2.outbound = db.outbound ∧
    (upsertInstagramProfile env igId meta db).2.media = db.media := by
  unfold upsertInstagramProfile
  cases db.profiles.find? (fun p => p.ig_id == igId) <;> simp

theorem upsert_connected (env : Env) (igId : String) (meta : InstagramProfileMeta) (db : DB) :
    (upsertInstagramProfile env igId meta db).1.connected_user_id = connectedUserOf db igId := by
  unfold upsertInstagramProfile connectedUserOf
  cases db.profiles.find? (fun p => p.ig_id == igId) <;> simp

theorem createToken_fields (sha : String → String) (env : Env) (igId eventId : String)
    (db : DB) :
    (createVerificationToken sha env igId eventId db).2.messages = db.messages ∧
    (createVerificationToken sha env igId eventId db).2.profiles = db.profiles ∧
    (createVerificationToken sha env igId eventId db).2.outbound = db.outbound ∧
    (createVerificationToken sha env igId eventId db).2.media = db.media := by
  simp [createVerificationToken]

theorem updateOutbound_fields (i : Nat) (u : OutboundUpdate) (db : DB) :
    (updateOutboundMessage i u db).messages = db.messages ∧
    (updateOutboundMessage i u db).profiles = db.profiles ∧
    (updateOutboundMessage i u db).tokens = db.tokens ∧
    (updateOutboundMessage i u db).media = db.media := by
  simp [updateOutboundMessage]

theorem runAttempts_fields (send : Nat → Except String String) (outId maxA : Nat)
    (fb : String) (attempts : List Nat) :
    ∀ (lastError : Option String) (db : DB) (sleeps : List Nat),
      (runAttempts send outId maxA fb attempts lastError db sleeps).2.1.messages = db.messages ∧
      (runAttempts send outId maxA fb attempts lastError db sleeps).2.1.profiles = db.profiles ∧
      (runAttempts send outId maxA fb attempts lastError db sleeps).2.1.tokens = db.tokens ∧
      (runAttempts send outId maxA fb attempts lastError db sleeps).2.1.media = db.media := by
  induction attempts with
  | nil => intro le db s; exact ⟨rfl, rfl, rfl, rfl⟩
  | cons a rest ih =>
    intro le db s
    unfold runAttempts
    cases h : send a with
    | ok v => simp [h, updateOutboundMessage]
    | error e => simp [h, ih, updateOutboundMessage]

theorem sendVerificationDM_fields (env : Env) (igId tokenPlain : String) (db : DB) :
    (sendVerificationDM env igId tokenPlain db).2.1.messages = db.messages ∧
    (sendVerificationDM env igId tokenPlain db).2.1.profiles = db.profiles ∧
    (sendVerificationDM env igId tokenPlain db).2.1.tokens = db.tokens ∧
    (sendVerificationDM env igId tokenPlain db).2.1.media = db.media := by
  unfold sendVerificationDM
  have h := runAttempts_fields env.sendDM
    (trackOutboundMessage igId "verification"
      (verificationMessageText env.baseUrl igId tokenPlain) "pending" db).1 3
    "Failed to send verification DM after retries" [1, 2, 3] none
    (trackOutboundMessage igId "verification"
      (verificationMessageText env.baseUrl igId tokenPlain) "pending" db).2 []
  simpa [trackOutboundMessage] using h

theorem sendAcknowledgementDM_fields (env : Env) (igId : String) (db : DB) :
    (sendAcknowledgementDM env igId db).2.1.messages = db.messages ∧
    (sendAcknowledgementDM env igId db).2.1.profiles = db.profiles ∧
    (sendAcknowledgementDM env igId db).2.1.tokens = db.tokens ∧
    (sendAcknowledgementDM env igId db).2.1.media = db.media := by
  unfold sendAcknowledgementDM
  have h := runAttempts_fields env.sendDM
    (trackOutboundMessage igId "acknowledgement" acknowledgementMessageText "pending" db).1 3
    "Failed to send acknowledgement DM after retries" [1, 2, 3] none
    (trackOutboundMessage igId "acknowledgement" acknowledgementMessageText "pending" db).2 []
  simpa [trackOutboundMessage] using h

/-! ## C6 — verification-token creation. -/

/-- C6: `createVerificationToken` hex-encodes 32 random bytes (a 256-bit
secret, 64 hex characters of plaintext), returns the plaintext, and the
single row it persists carries only the SHA-256 hash of the plaintext
together with `ig_id`, an expiry exactly one hour after creation,
`consumed = false`, and the triggering event id — no field of the stored
row holds the plaintext itself. -/
theorem createVerificationToken_spec (sha : String → String) (env : Env)
    (igId eventId : String) (db : DB) (hrand : env.randBytes.length = 32) :
    (createVerificationToken sha env igId eventId db).1.tokenPlain =
      bytesToHex env.randBytes ∧
    (createVerificationToken sha env igId eventId db).1.tokenPlain.length = 64 ∧
    (createVerificationToken sha env igId eventId db).1.tokenHash =
      sha (createVerificationToken sha env igId eventId db).1.tokenPlain ∧
    (createVerificationToken sha env igId eventId db).1.expiresAt = env.now + oneHourMs ∧
    (createVerificationToken sha env igId eventId db).2.tokens =
      db.tokens ++
        [{ token_hash := sha (createVerificationToken sha env igId eventId db).1.tokenPlain
           ig_id := igId
           expires_at := env.now + oneHourMs
           consumed := false
           created_by_event_id := eventId }] ∧
    (createVerificationToken sha env igId eventId db).2.messages = db.messages ∧
    (createVerificationToken sha env igId eventId db).2.profiles = db.profiles ∧
    (createVerificationToken sha env igId eventId db).2.outbound = db.outbound ∧
    (createVerificationToken sha env igId eventId db).2.media = db.media := by
  refine ⟨rfl, ?_, rfl, rfl, rfl, rfl, rfl, rfl, rfl⟩
  show (bytesToHex env.randBytes).length = 64
  simp [bytesToHex, String.length, bytesHexChars_length, hrand]

/-- C6 witness. -/
theorem createVerificationToken_spec_witness :
    ((List.replicate 32 (0 : Fin 256)).length = 32) ∧
    (createVerificationToken (fun s => "h" ++ s)
      ⟨1700000000000, "https://rv.app", List.replicate 32 (0 : Fin 256), fun _ => .error "x"⟩
      "U1" "M1" ⟨[], [], [], [], []⟩).1.tokenPlain.length = 64 :=
  ⟨by decide,
   (createVerificationToken_spec (fun s => "h" ++ s)
      ⟨1700000000000, "https://rv.app", List.replicate 32 (0 : Fin 256), fun _ => .error "x"⟩
      "U1" "M1" ⟨[], [], [], [], []⟩ (by decide)).2.1⟩

/-! ## C7 — the delivery queue bridge. -/

/-- C7: with a configured base URL, `forwardToInternalIngestion` returns
normally for every combination of per-event publish outcomes (failures and
timeouts are swallowed), settles one publish attempt per decoded event, and
— when the QStash token is configured — every published attempt targets the
fixed consumer endpoint with the deterministic deduplication id
`ig_msg_<mid>`, which is identical across repeated publishes of the same
`mid`. -/
theorem forwardToInternalIngestion_spec (qenv : QueueEnv)
    (events : List IncomingMessagingEvent) (hbase : qenv.baseUrl ≠ "") :
    ∃ trace, forwardToInternalIngestion qenv events = .ok trace ∧
      trace.length = events.length ∧
      (qenv.qstashToken ≠ "" →
        trace = events.map (fun e =>
          (some { url := qenv.baseUrl ++ "/api/qstash/instagram-ingestion"
                  deduplicationId := "ig_msg_" ++ e.mid
                  body := e
                  retries := 3
                  timeout := 30 },
           match qenv.publishResult e with
           | .ok _ => true
           | .error _ => false))) := by
  refine ⟨events.map (publishOneEvent qenv (qenv.baseUrl ++ "/api/qstash/instagram-ingestion")),
    ?_, by simp, ?_⟩
  · unfold forwardToInternalIngestion
    simp [hbase]
  · intro htok
    refine List.map_congr_left ?_
    intro e _
    unfold publishOneEvent
    simp only [beq_eq_false_iff_ne, ne_eq]
    rw [if_neg (by simpa using htok)]
    cases qenv.publishResult e <;> simp

/-- C7 witness. -/
theorem forwardToInternalIngestion_spec_witness :
    ∃ trace,
      forwardToInternalIngestion
        ⟨"https://rv.app", "tok", fun _ => .error "publish timeout"⟩
        [⟨"M1", "U1", "P1", "1700000000000", none, none⟩] = .ok trace ∧
      trace.length = 1 := by
  obtain ⟨trace, h1, h2, _⟩ := forwardToInternalIngestion_spec
    ⟨"https://rv.app", "tok", fun _ => .error "publish timeout"⟩
    [⟨"M1", "U1", "P1", "1700000000000", none, none⟩] (by decide)
  exact ⟨trace, h1, h2⟩

/-! ## C5 — token consumption is single-use and expiry-checked. -/

/-- C5: a successful consume marks every row holding the token hash
`consumed = true`, so an immediately repeated consume of the same plaintext
and `ig_id` resolves to the not-found/already-consumed outcome and changes
nothing; and a consume attempted after `expires_at` of the (unique,
unconsumed) matching token fails with the expired outcome and leaves the
store — in particular the token's `consumed` flag — untouched. -/
theorem consumeVerificationToken_spec :
    (∀ (sha : String → String) (now : Nat) (userId : String)
        (fetchedUsername : Option String) (tokenPlain igId : String) (db db1 : DB),
      consumeVerificationToken sha now userId fetchedUsername tokenPlain igId db =
        (.success, db1) →
      (∀ r ∈ db1.tokens, r.token_hash = sha tokenPlain → r.consumed = true) ∧
      (∀ (now2 : Nat) (userId2 : String) (fetchedUsername2 : Option String),
        consumeVerificationToken sha now2 userId2 fetchedUsername2 tokenPlain igId db1 =
          (.notFound, db1))) ∧
    (∀ (sha : String → String) (now : Nat) (userId : String)
        (fetchedUsername : Option String) (tokenPlain igId : String) (db : DB)
        (t : VerificationTokenRow),
      db.tokens.filter (fun t =>
        t.token_hash == sha tokenPlain && t.ig_id == igId && t.consumed == false) = [t] →
      t.expires_at < now →
      consumeVerificationToken sha now userId fetchedUsername tokenPlain igId db =
        (.expired, db)) := by
  constructor
  · intro sha now userId fetchedUsername tokenPlain igId db db1 hsucc
    simp only [consumeVerificationToken] at hsucc
    cases hf : db.tokens.filter (fun t =>
        t.token_hash == sha tokenPlain && t.ig_id == igId && t.consumed == false) with
    | nil => rw [hf] at hsucc; simp at hsucc
    | cons t rest =>
      cases rest with
      | cons t2 rest2 => rw [hf] at hsucc; simp at hsucc
      | nil =>
        rw [hf] at hsucc
        by_cases hexp : t.expires_at < now
        · simp only [if_pos hexp] at hsucc
          exact absurd (congrArg Prod.fst hsucc) (by simp)
        · simp only [if_neg hexp] at hsucc
          have hdb1 : db1 =
              { { db with
                  tokens := db.tokens.map (fun (r : VerificationTokenRow) =>
                    if r.token_hash == sha tokenPlain then { r with consumed := true }
                    else r) } with
                profiles := db.profiles.map (fun (p : InstagramProfileRow) =>
                  if p.ig_id == igId then
                    { p with
                      connected_user_id := some userId
                      connected_at := some now
                      updated_at := now
                      username :=
                        if truthyStr fetchedUsername then fetchedUsername else p.username }
                  else p) } := by
            have := congrArg Prod.snd hsucc
            exact this.symm
          have hconsumed : ∀ r ∈ db1.tokens, r.token_hash = sha tokenPlain →
              r.consumed = true := by
            intro r hr hhash
            rw [hdb1] at hr
            simp only [List.mem_map] at hr
            obtain ⟨q, _, hq⟩ := hr
            by_cases hmatch : q.token_hash == sha tokenPlain
            · rw [if_pos hmatch] at hq
              rw [← hq]
            · rw [if_neg hmatch] at hq
              rw [← hq] at hhash
              exact absurd (by simpa using hhash) (by simpa using hmatch)
          refine ⟨hconsumed, ?_⟩
          intro now2 userId2 fetchedUsername2
          have hnil : db1.tokens.filter (fun t =>
              t.token_hash == sha tokenPlain && t.ig_id == igId && t.consumed == false) =
              [] := by
            rw [List.filter_eq_nil_iff]
            intro r hr
            by_cases hhash : r.token_hash = sha tokenPlain
            · have := hconsumed r hr hhash
              simp [this, hhash]
            · simp [hhash]
          simp only [consumeVerificationToken]
          rw [hnil]
  · intro sha now userId fetchedUsername tokenPlain igId db t hf hexp
    unfold consumeVerificationToken
    rw [hf]
    simp [hexp]

/-- C5 witness. -/
theorem consumeVerificationToken_spec_witness :
    (consumeVerificationToken (fun s => "H" ++ s) 1000 "user" none "tok" "U1"
        ⟨[⟨"U1", none, none, none, none, none, 0, 0⟩], [],
         [⟨"Htok", "U1", 2000, false, "M1"⟩], [], []⟩).1 = .success ∧
    (consumeVerificationToken (fun s => "H" ++ s) 1500 "user2" none "tok" "U1"
        (consumeVerificationToken (fun s => "H" ++ s) 1000 "user" none "tok" "U1"
          ⟨[⟨"U1", none, none, none, none, none, 0, 0⟩], [],
           [⟨"Htok", "U1", 2000, false, "M1"⟩], [], []⟩).2).1 = .notFound ∧
    (consumeVerificationToken (fun s => "H" ++ s) 9000 "user" none "tok" "U1"
        ⟨[], [], [⟨"Htok", "U1", 2000, false, "M1"⟩], [], []⟩).1 = .expired := by
  have hs : consumeVerificationToken (fun s => "H" ++ s) 1000 "user" none "tok" "U1"
      ⟨[⟨"U1", none, none, none, none, none, 0, 0⟩], [],
       [⟨"Htok", "U1", 2000, false, "M1"⟩], [], []⟩ =
      (.success,
       (consumeVerificationToken (fun s => "H" ++ s) 1000 "user" none "tok" "U1"
          ⟨[⟨"U1", none, none, none, none, none, 0, 0⟩], [],
           [⟨"Htok", "U1", 2000, false, "M1"⟩], [], []⟩).2) := by
    rfl
  have h1 := (consumeVerificationToken_spec.1 (fun s => "H" ++ s) 1000 "user" none "tok" "U1"
    _ _ hs).2 1500 "user2" none
  have h2 := consumeVerificationToken_spec.2 (fun s => "H" ++ s) 9000 "user" none "tok" "U1"
    ⟨[], [], [⟨"Htok", "U1", 2000, false, "M1"⟩], [], []⟩
    ⟨"Htok", "U1", 2000, false, "M1"⟩ (by rfl) (by decide)
  exact ⟨by rw [hs], by rw [h1], by rw [h2]⟩

/-! ## Decoder lemmas (C8, C9). -/

theorem getProp_eq_ok (v : JsValue) (p : String) (h : isNullish v = false) :
    getProp v p = .ok (jsGetOpt v p) := by
  cases v <;> simp_all [getProp, jsGetOpt, isNullish]

theorem truthy_not_nullish {v : JsValue} (h : truthy v = true) : isNullish v = false := by
  cases v <;> simp_all [truthy, isNullish]

theorem parseOneMessaging_total (now : Nat) (m : JsValue) (h : isNullish m = false) :
    ∃ r, parseOneMessaging now m = .ok r := by
  have hm := getProp_eq_ok m "message" h
  by_cases ht : truthy (jsGetOpt m "message")
  · have hmsg : isNullish (jsGetOpt m "message") = false := truthy_not_nullish ht
    have he := getProp_eq_ok (jsGetOpt m "message") "is_echo" hmsg
    have hmid := getProp_eq_ok (jsGetOpt m "message") "mid" hmsg
    have htext := getProp_eq_ok (jsGetOpt m "message") "text" hmsg
    have hatt := getProp_eq_ok (jsGetOpt m "message") "attachments" hmsg
    have hs := getProp_eq_ok m "sender" h
    have hr := getProp_eq_ok m "recipient" h
    have hts := getProp_eq_ok m "timestamp" h
    by_cases hecho : isTrueLit (jsGetOpt (jsGetOpt m "message") "is_echo") <;>
      by_cases hmid2 : truthy (jsGetOpt (jsGetOpt m "message") "mid") <;>
        simp [parseOneMessaging, hm, ht, he, hmid, htext, hatt, hs, hr, hts, hecho, hmid2, Bind.bind, Except.bind, Pure.pure, Except.pure, Functor.map, Except.map]
  · simp [parseOneMessaging, hm, ht, Bind.bind, Except.bind, Pure.pure, Except.pure, Functor.map, Except.map]

theorem parseOneMessaging_dropped (now : Nat) (m : JsValue) (h : droppedMessaging m = true) :
    parseOneMessaging now m = .ok none := by
  by_cases hn : isNullish m = true
  · simp [droppedMessaging, hn] at h
  · have hn' : isNullish m = false := by simpa using hn
    have hm := getProp_eq_ok m "message" hn'
    simp only [droppedMessaging, hn', Bool.false_eq_true, if_false] at h
    by_cases ht : truthy (jsGetOpt m "message")
    · have hmsg := truthy_not_nullish ht
      have he := getProp_eq_ok (jsGetOpt m "message") "is_echo" hmsg
      have hmidp := getProp_eq_ok (jsGetOpt m "message") "mid" hmsg
      simp only [ht, if_true] at h
      by_cases hecho : isTrueLit (jsGetOpt (jsGetOpt m "message") "is_echo")
      · simp [parseOneMessaging, hm, ht, he, hecho, Bind.bind, Except.bind, Pure.pure, Except.pure, Functor.map, Except.map]
      · have hmid : truthy (jsGetOpt (jsGetOpt m "message") "mid") = false := by
          simp [hecho] at h
          simpa using h
        simp [parseOneMessaging, hm, ht, he, hmidp, hecho, hmid, Bind.bind, Except.bind, Pure.pure, Except.pure, Functor.map, Except.map]
    · simp [parseOneMessaging, hm, ht, Bind.bind, Except.bind, Pure.pure, Except.pure, Functor.map, Except.map]

theorem parseMessagingList_total (now : Nat) (ms : List JsValue)
    (h : ∀ m ∈ ms, isNullish m = false) :
    ∃ evs, parseMessagingList now ms = .ok evs := by
  induction ms with
  | nil => exact ⟨[], rfl⟩
  | cons m rest ih =>
    obtain ⟨r, hr⟩ := parseOneMessaging_total now m (h m (by simp))
    obtain ⟨tail, htail⟩ := ih (fun x hx => h x (by simp [hx]))
    cases r with
    | none => exact ⟨tail, by simp [parseMessagingList, hr, htail, Bind.bind, Except.bind, Pure.pure, Except.pure, Functor.map, Except.map]⟩
    | some ev => exact ⟨ev :: tail, by simp [parseMessagingList, hr, htail, Bind.bind, Except.bind, Pure.pure, Except.pure, Functor.map, Except.map]⟩

theorem parseMessagingList_dropped (now : Nat) (ms : List JsValue)
    (h : ∀ m ∈ ms, droppedMessaging m = true) :
    parseMessagingList now ms = .ok [] := by
  induction ms with
  | nil => rfl
  | cons m rest ih =>
    have hhd := parseOneMessaging_dropped now m (h m (by simp))
    have htl := ih (fun x hx => h x (by simp [hx]))
    simp [parseMessagingList, hhd, htl, Bind.bind, Except.bind, Pure.pure, Except.pure, Functor.map, Except.map]

theorem parseEntryEvents_total (now : Nat) (e : JsValue) (he : isNullish e = false)
    (hms : ∀ m ∈ elemsOf (jsGetOpt e "messaging"), isNullish m = false) :
    ∃ evs, parseEntryEvents now e = .ok evs := by
  have hmsg := getProp_eq_ok e "messaging" he
  by_cases hguard : truthy (jsGetOpt e "messaging") && isArray (jsGetOpt e "messaging")
  · obtain ⟨evs, hevs⟩ := parseMessagingList_total now (elemsOf (jsGetOpt e "messaging")) hms
    exact ⟨evs, by simp [parseEntryEvents, hmsg, hguard, hevs, Bind.bind, Except.bind, Pure.pure, Except.pure, Functor.map, Except.map]⟩
  · exact ⟨[], by simp [parseEntryEvents, hmsg, hguard, Bind.bind, Except.bind, Pure.pure, Except.pure, Functor.map, Except.map]⟩

theorem parseEntriesEvents_total (now : Nat) (es : List JsValue)
    (h : ∀ e ∈ es, isNullish e = false ∧
      ∀ m ∈ elemsOf (jsGetOpt e "messaging"), isNullish m = false) :
    ∃ evs, parseEntriesEvents now es = .ok evs := by
  induction es with
  | nil => exact ⟨[], rfl⟩
  | cons e rest ih =>
    obtain ⟨evs1, h1⟩ := parseEntryEvents_total now e (h e (by simp)).1 (h e (by simp)).2
    obtain ⟨evs2, h2⟩ := ih (fun x hx => h x (by simp [hx]))
    exact ⟨evs1 ++ evs2, by simp [parseEntriesEvents, h1, h2, Bind.bind, Except.bind, Pure.pure, Except.pure, Functor.map, Except.map]⟩

/-! ## C8 — decoder totality (corrected). -/

/-- C8 counterexample: `parseMessagingEvents` is *not* total — at the input
`null`, which the claim explicitly includes, the very first property access
`body.field` throws a `TypeError` instead of returning an empty list. -/
theorem parseMessagingEvents_null_throws :
    parseMessagingEvents 0 JsValue.null =
      .error "TypeError: cannot read properties of null, reading field" := rfl

/-- The test-shape block never throws on a non-nullish payload. -/
theorem parseTestShapeEvents_total (now : Nat) (body : JsValue)
    (hb : isNullish body = false) :
    ∃ evs, parseTestShapeEvents now body = .ok evs := by
  cases hc : parseTestShapeEvents now body with
  | ok evs => exact ⟨evs, rfl⟩
  | error e =>
    exfalso
    have hfield := getProp_eq_ok body "field" hb
    have hvalue := getProp_eq_ok body "value" hb
    by_cases hf : strictEqStr (jsGetOpt body "field") "messages"
    case neg =>
      simp [parseTestShapeEvents, hfield, hf, Bind.bind, Except.bind, Pure.pure,
        Except.pure] at hc
    case pos =>
    by_cases hv : truthy (jsGetOpt body "value")
    case neg =>
      simp [parseTestShapeEvents, hfield, hvalue, hf, hv, Bind.bind, Except.bind, Pure.pure,
        Except.pure] at hc
    case pos =>
    have hvn := truthy_not_nullish hv
    have hmsg := getProp_eq_ok (jsGetOpt body "value") "message" hvn
    by_cases hm : truthy (jsGetOpt (jsGetOpt body "value") "message")
    case neg =>
      simp [parseTestShapeEvents, hfield, hvalue, hf, hv, hmsg, hm, Bind.bind, Except.bind,
        Pure.pure, Except.pure] at hc
    case pos =>
    have hmn := truthy_not_nullish hm
    have hmid := getProp_eq_ok (jsGetOpt (jsGetOpt body "value") "message") "mid" hmn
    have hsender := getProp_eq_ok (jsGetOpt body "value") "sender" hvn
    have hrecip := getProp_eq_ok (jsGetOpt body "value") "recipient" hvn
    have hts := getProp_eq_ok (jsGetOpt body "value") "timestamp" hvn
    have htext := getProp_eq_ok (jsGetOpt (jsGetOpt body "value") "message") "text" hmn
    have hatt := getProp_eq_ok (jsGetOpt (jsGetOpt body "value") "message") "attachments" hmn
    by_cases hmid2 : truthy (jsGetOpt (jsGetOpt (jsGetOpt body "value") "message") "mid") <;>
      simp [parseTestShapeEvents, hfield, hvalue, hf, hv, hmsg, hm, hmid, hsender, hrecip,
        hts, htext, hatt, hmid2, Bind.bind, Except.bind, Pure.pure, Except.pure,
        Functor.map, Except.map] at hc

/-- The standard-shape block never throws on a safe payload. -/
theorem parseStandardShapeEvents_total (now : Nat) (body : JsValue) (h : safePayload body) :
    ∃ evs, parseStandardShapeEvents now body = .ok evs := by
  obtain ⟨hb, hstd⟩ := h
  cases hc : parseStandardShapeEvents now body with
  | ok evs => exact ⟨evs, rfl⟩
  | error e =>
    exfalso
    have hobject := getProp_eq_ok body "object" hb
    have hentry := getProp_eq_ok body "entry" hb
    by_cases hobj : strictEqStr (jsGetOpt body "object") "instagram"
    case neg =>
      simp [parseStandardShapeEvents, hobject, hobj, Bind.bind, Except.bind, Pure.pure,
        Except.pure] at hc
    case pos =>
    by_cases hent : truthy (jsGetOpt body "entry")
    case neg =>
      simp [parseStandardShapeEvents, hobject, hentry, hobj, hent, Bind.bind, Except.bind,
        Pure.pure, Except.pure] at hc
    case pos =>
    obtain ⟨entries, hiter, hsafe⟩ := hstd hobj hent
    obtain ⟨evs2, hevs2⟩ := parseEntriesEvents_total now entries hsafe
    simp [parseStandardShapeEvents, hobject, hentry, hobj, hent, hiter, hevs2, Bind.bind,
      Except.bind, Pure.pure, Except.pure] at hc

/-- C8 (amended): the decoder never throws and returns a (possibly empty)
event list for every payload that is not `null`/`undefined` and whose
standard-shape branch, when taken, iterates an iterable `entry` whose
elements — and the elements of their `messaging` arrays — are not
`null`/`undefined`; outside these conditions (a `null` payload, a truthy
non-iterable `entry` field, nullish `entry` or `messaging` elements) a
`TypeError` propagates to the caller. -/
theorem parseMessagingEvents_total (now : Nat) (body : JsValue) (h : safePayload body) :
    ∃ evs, parseMessagingEvents now body = .ok evs := by
  obtain ⟨evs1, h1⟩ := parseTestShapeEvents_total now body h.1
  obtain ⟨evs2, h2⟩ := parseStandardShapeEvents_total now body h
  exact ⟨evs1 ++ evs2, by
    simp [parseMessagingEvents, h1, h2, Bind.bind, Except.bind, Pure.pure, Except.pure]⟩

/-- C8 witness (for the amended theorem). -/
theorem parseMessagingEvents_total_witness :
    ∃ evs,
      parseMessagingEvents 0
        (JsValue.obj [("object", .str "instagram"),
                      ("entry", .arr [.obj [("messaging", .arr [JsValue.num 7])]])]) =
        .ok evs :=
  parseMessagingEvents_total 0 _
    ⟨rfl, fun _ _ => ⟨[.obj [("messaging", .arr [JsValue.num 7])]], rfl, by decide⟩⟩

/-! ## C9 — decoder round-trip. -/

/-- C9: decoding the well-formed standard-shape payload with one valid
non-echo message with `mid = "m1"` yields exactly one event with
`mid = "m1"`; and for every standard-shape payload whose messaging elements
are all dropped ones (echo messages or messages without a `mid`, i.e. read
receipts), decoding yields zero events. -/
theorem decoder_roundtrip :
    parseMessagingEvents 99
      (singleEntryPayload
        [.obj [("sender", .obj [("id", .str "U1")]),
               ("recipient", .obj [("id", .str "P1")]),
               ("timestamp", .num 1700000000000),
               ("message", .obj [("mid", .str "m1"), ("text", .str "hi")])]]) =
      .ok [{ mid := .str "m1"
             sender_ig_id := .str "U1"
             recipient_ig_id := .str "P1"
             timestamp := "1700000000000"
             message_text := .str "hi"
             attachments := .null }] ∧
    ∀ (now : Nat) (msgs : List JsValue), (∀ m ∈ msgs, droppedMessaging m = true) →
      parseMessagingEvents now (singleEntryPayload msgs) = .ok [] := by
  constructor
  · rfl
  · intro now msgs h
    have hlist := parseMessagingList_dropped now msgs h
    simp [parseMessagingEvents, parseTestShapeEvents, parseStandardShapeEvents,
      singleEntryPayload, getProp, lookupField, strictEqStr,
      truthy, iterateJs, parseEntriesEvents, parseEntryEvents, isArray, elemsOf, jsGetOpt,
      hlist, Bind.bind, Except.bind, Pure.pure, Except.pure, Functor.map, Except.map]

/-- C9 witness: a payload containing only an echo message decodes to zero
events. -/
theorem decoder_roundtrip_witness :
    parseMessagingEvents 7
      (singleEntryPayload
        [.obj [("message", .obj [("mid", .str "m9"), ("is_echo", .bool true)])]]) = .ok [] :=
  decoder_roundtrip.2 7
    [.obj [("message", .obj [("mid", .str "m9"), ("is_echo", .bool true)])]] (by decide)

/-! ## C3 — the retrying outbound sender. -/

theorem map_id_of {α : Type} (l : List α) (f : α → α) (h : ∀ x ∈ l, f x = x) :
    l.map f = l := by
  induction l with
  | nil => rfl
  | cons a t ih => simp [h a (by simp), ih (fun x hx => h x (by simp [hx]))]

/-- The retry loop where every attempt fails: three attempts, backoff sleeps
after the first and second failures, terminal `failed` row carrying the last
error and `attempts = 3`, and the last error is raised. -/
theorem runAttempts_fail3 (send : Nat → Except String String) (n : Nat) (fb : String)
    (db : DB) (l : List OutboundMessageRow) (row0 : OutboundMessageRow)
    (hfresh : ∀ q ∈ l, q.id ≠ n) (hid : row0.id = n) (e1 e2 e3 : String)
    (h1 : send 1 = .error e1) (h2 : send 2 = .error e2) (h3 : send 3 = .error e3) :
    runAttempts send n 3 fb [1, 2, 3] none { db with outbound := l ++ [row0] } [] =
      (.error e3,
       { db with outbound :=
          l ++ [{ row0 with status := "failed", attempts := 3, error := some e3 }] },
       [backoffDelay 1, backoffDelay 2]) := by
  have hupd : ∀ (u : OutboundUpdate) (rowx : OutboundMessageRow), rowx.id = n →
      updateOutboundMessage n u { db with outbound := l ++ [rowx] } =
        { db with outbound := l ++ [applyOutboundUpdate u rowx] } := by
    intro u rowx hx
    unfold updateOutboundMessage
    congr 1
    rw [List.map_append]
    congr 1
    · exact map_id_of _ _ (fun q hq => by simp [hfresh q hq])
    · have hb : (rowx.id == n) = true := beq_iff_eq.mpr hx
      simp [hb]
      intro h
      exact absurd hx h
  have hu1 := hupd ⟨some "pending", none, some e1, some 1⟩ row0 hid
  have hu2 := hupd ⟨some "pending", none, some e2, some 2⟩
    (applyOutboundUpdate ⟨some "pending", none, some e1, some 1⟩ row0)
    (by simp [applyOutboundUpdate, hid])
  have hu3 := hupd ⟨some "failed", none, some e3, some 3⟩
    (applyOutboundUpdate ⟨some "pending", none, some e2, some 2⟩
      (applyOutboundUpdate ⟨some "pending", none, some e1, some 1⟩ row0))
    (by simp [applyOutboundUpdate, hid])
  simp only [runAttempts, h1, h2, h3]
  norm_num
  rw [hu1, hu2, hu3]
  simp [applyOutboundUpdate]

/-- The retry loop with success on the first attempt: the remote id is
returned at once, the row turns `sent` with `attempts = 1`, no sleeps. -/
theorem runAttempts_succ1 (send : Nat → Except String String) (n : Nat) (fb : String)
    (db : DB) (l : List OutboundMessageRow) (row0 : OutboundMessageRow)
    (hfresh : ∀ q ∈ l, q.id ≠ n) (hid : row0.id = n) (rid : String)
    (h1 : send 1 = .ok rid) :
    runAttempts send n 3 fb [1, 2, 3] none { db with outbound := l ++ [row0] } [] =
      (.ok rid,
       { db with outbound :=
          l ++ [{ row0 with
                    status := "sent", remote_message_id := some rid, attempts := 1 }] },
       []) := by
  have hupd : ∀ (u : OutboundUpdate) (rowx : OutboundMessageRow), rowx.id = n →
      updateOutboundMessage n u { db with outbound := l ++ [rowx] } =
        { db with outbound := l ++ [applyOutboundUpdate u rowx] } := by
    intro u rowx hx
    unfold updateOutboundMessage
    congr 1
    rw [List.map_append]
    congr 1
    · exact map_id_of _ _ (fun q hq => by simp [hfresh q hq])
    · have hb : (rowx.id == n) = true := beq_iff_eq.mpr hx
      simp [hb]
      intro h
      exact absurd hx h
  have hu1 := hupd ⟨some "sent", some rid, none, some 1⟩ row0 hid
  simp only [runAttempts, h1]
  rw [hu1]
  simp [applyOutboundUpdate]

/-- The retry loop with success on the second attempt: one backoff sleep,
`sent` with `attempts = 2` (the first failure's error text remains on the
row, as the success update does not clear it). -/
theorem runAttempts_succ2 (send : Nat → Except String String) (n : Nat) (fb : String)
    (db : DB) (l : List OutboundMessageRow) (row0 : OutboundMessageRow)
    (hfresh : ∀ q ∈ l, q.id ≠ n) (hid : row0.id = n) (e1 rid : String)
    (h1 : send 1 = .error e1) (h2 : send 2 = .ok rid) :
    runAttempts send n 3 fb [1, 2, 3] none { db with outbound := l ++ [row0] } [] =
      (.ok rid,
       { db with outbound :=
          l ++ [{ row0 with
                    status := "sent", remote_message_id := some rid, attempts := 2,
                    error := some e1 }] },
       [backoffDelay 1]) := by
  have hupd : ∀ (u : OutboundUpdate) (rowx : OutboundMessageRow), rowx.id = n →
      updateOutboundMessage n u { db with outbound := l ++ [rowx] } =
        { db with outbound := l ++ [applyOutboundUpdate u rowx] } := by
    intro u rowx hx
    unfold updateOutboundMessage
    congr 1
    rw [List.map_append]
    congr 1
    · exact map_id_of _ _ (fun q hq => by simp [hfresh q hq])
    · have hb : (rowx.id == n) = true := beq_iff_eq.mpr hx
      simp [hb]
      intro h
      exact absurd hx h
  have hu1 := hupd ⟨some "pending", none, some e1, some 1⟩ row0 hid
  have hu2 := hupd ⟨some "sent", some rid, none, some 2⟩
    (applyOutboundUpdate ⟨some "pending", none, some e1, some 1⟩ row0)
    (by simp [applyOutboundUpdate, hid])
  simp only [runAttempts, h1, h2]
  norm_num
  rw [hu1, hu2]
  simp [applyOutboundUpdate]

/-- The retry loop with success on the third attempt: two backoff sleeps,
`sent` with `attempts = 3`. -/
theorem runAttempts_succ3 (send : Nat → Except String String) (n : Nat) (fb : String)
    (db : DB) (l : List OutboundMessageRow) (row0 : OutboundMessageRow)
    (hfresh : ∀ q ∈ l, q.id ≠ n) (hid : row0.id = n) (e1 e2 rid : String)
    (h1 : send 1 = .error e1) (h2 : send 2 = .error e2) (h3 : send 3 = .ok rid) :
    runAttempts send n 3 fb [1, 2, 3] none { db with outbound := l ++ [row0] } [] =
      (.ok rid,
       { db with outbound :=
          l ++ [{ row0 with
                    status := "sent", remote_message_id := some rid, attempts := 3,
                    error := some e2 }] },
       [backoffDelay 1, backoffDelay 2]) := by
  have hupd : ∀ (u : OutboundUpdate) (rowx : OutboundMessageRow), rowx.id = n →
      updateOutboundMessage n u { db with outbound := l ++ [rowx] } =
        { db with outbound := l ++ [applyOutboundUpdate u rowx] } := by
    intro u rowx hx
    unfold updateOutboundMessage
    congr 1
    rw [List.map_append]
    congr 1
    · exact map_id_of _ _ (fun q hq => by simp [hfresh q hq])
    · have hb : (rowx.id == n) = true := beq_iff_eq.mpr hx
      simp [hb]
      intro h
      exact absurd hx h
  have hu1 := hupd ⟨some "pending", none, some e1, some 1⟩ row0 hid
  have hu2 := hupd ⟨some "pending", none, some e2, some 2⟩
    (applyOutboundUpdate ⟨some "pending", none, some e1, some 1⟩ row0)
    (by simp [applyOutboundUpdate, hid])
  have hu3 := hupd ⟨some "sent", some rid, none, some 3⟩
    (applyOutboundUpdate ⟨some "pending", none, some e2, some 2⟩
      (applyOutboundUpdate ⟨some "pending", none, some e1, some 1⟩ row0))
    (by simp [applyOutboundUpdate, hid])
  simp only [runAttempts, h1, h2, h3]
  norm_num
  rw [hu1, hu2, hu3]
  simp [applyOutboundUpdate]

/-- C3: both retrying senders make exactly 3 attempts when the platform call
always fails — sleeping `min(1000·2^(attempt-1), 10000)` ms (that is
`backoffDelay`; concretely 1000 ms then 2000 ms) between attempts, leaving
the tracking row `status = "failed"`, `attempts = 3` with the last error
recorded, and raising the last error — and on the first successful attempt
`k` they stop immediately with the row `status = "sent"`, the platform
message id recorded and `attempts = k`, having slept only between the
preceding failed attempts.  (The freshness hypothesis says the generated
row id is new, as a database-generated key is.) -/
theorem sendWithRetry_spec :
    (∀ (env : Env) (igId tokenPlain : String) (db : DB) (e1 e2 e3 : String),
      env.sendDM 1 = .error e1 → env.sendDM 2 = .error e2 → env.sendDM 3 = .error e3 →
      (∀ q ∈ db.outbound, q.id ≠ db.outbound.length) →
      sendVerificationDM env igId tokenPlain db =
        (.error e3,
         { db with outbound := db.outbound ++
            [{ id := db.outbound.length
               recipient_ig_id := igId
               kind := "verification"
               payload := verificationMessageText env.baseUrl igId tokenPlain
               status := "failed"
               attempts := 3
               remote_message_id := none
               error := some e3 }] },
         [1000, 2000])) ∧
    (∀ (env : Env) (igId : String) (db : DB) (e1 e2 e3 : String),
      env.sendDM 1 = .error e1 → env.sendDM 2 = .error e2 → env.sendDM 3 = .error e3 →
      (∀ q ∈ db.outbound, q.id ≠ db.outbound.length) →
      sendAcknowledgementDM env igId db =
        (.error e3,
         { db with outbound := db.outbound ++
            [{ id := db.outbound.length
               recipient_ig_id := igId
               kind := "acknowledgement"
               payload := acknowledgementMessageText
               status := "failed"
               attempts := 3
               remote_message_id := none
               error := some e3 }] },
         [1000, 2000])) ∧
    (∀ (env : Env) (igId tokenPlain : String) (db : DB) (rid : String),
      env.sendDM 1 = .ok rid →
      (∀ q ∈ db.outbound, q.id ≠ db.outbound.length) →
      sendVerificationDM env igId tokenPlain db =
        (.ok (rid, db.outbound.length),
         { db with outbound := db.outbound ++
            [{ id := db.outbound.length
               recipient_ig_id := igId
               kind := "verification"
               payload := verificationMessageText env.baseUrl igId tokenPlain
               status := "sent"
               attempts := 1
               remote_message_id := some rid
               error := none }] },
         [])) ∧
    (∀ (env : Env) (igId tokenPlain : String) (db : DB) (e1 rid : String),
      env.sendDM 1 = .error e1 → env.sendDM 2 = .ok rid →
      (∀ q ∈ db.outbound, q.id ≠ db.outbound.length) →
      sendVerificationDM env igId tokenPlain db =
        (.ok (rid, db.outbound.length),
         { db with outbound := db.outbound ++
            [{ id := db.outbound.length
               recipient_ig_id := igId
               kind := "verification"
               payload := verificationMessageText env.baseUrl igId tokenPlain
               status := "sent"
               attempts := 2
               remote_message_id := some rid
               error := some e1 }] },
         [1000])) ∧
    (∀ (env : Env) (igId tokenPlain : String) (db : DB) (e1 e2 rid : String),
      env.sendDM 1 = .error e1 → env.sendDM 2 = .error e2 → env.sendDM 3 = .ok rid →
      (∀ q ∈ db.outbound, q.id ≠ db.outbound.length) →
      sendVerificationDM env igId tokenPlain db =
        (.ok (rid, db.outbound.length),
         { db with outbound := db.outbound ++
            [{ id := db.outbound.length
               recipient_ig_id := igId
               kind := "verification"
               payload := verificationMessageText env.baseUrl igId tokenPlain
               status := "sent"
               attempts := 3
               remote_message_id := some rid
               error := some e2 }] },
         [1000, 2000])) ∧
    (∀ (env : Env) (igId : String) (db : DB) (rid : String),
      env.sendDM 1 = .ok rid →
      (∀ q ∈ db.outbound, q.id ≠ db.outbound.length) →
      sendAcknowledgementDM env igId db =
        (.ok (rid, db.outbound.length),
         { db with outbound := db.outbound ++
            [{ id := db.outbound.length
               recipient_ig_id := igId
               kind := "acknowledgement"
               payload := acknowledgementMessageText
               status := "sent"
               attempts := 1
               remote_message_id := some rid
               error := none }] },
         [])) := by
  refine ⟨?_, ?_, ?_, ?_, ?_, ?_⟩
  · intro env igId tokenPlain db e1 e2 e3 h1 h2 h3 hfresh
    have hr := runAttempts_fail3 env.sendDM db.outbound.length
      "Failed to send verification DM after retries" db db.outbound
      ⟨db.outbound.length, igId, "verification",
        verificationMessageText env.baseUrl igId tokenPlain, "pending", 0, none, none⟩
      hfresh rfl e1 e2 e3 h1 h2 h3
    simp [sendVerificationDM, trackOutboundMessage, hr, Except.map, backoffDelay]
  · intro env igId db e1 e2 e3 h1 h2 h3 hfresh
    have hr := runAttempts_fail3 env.sendDM db.outbound.length
      "Failed to send acknowledgement DM after retries" db db.outbound
      ⟨db.outbound.length, igId, "acknowledgement",
        acknowledgementMessageText, "pending", 0, none, none⟩
      hfresh rfl e1 e2 e3 h1 h2 h3
    simp [sendAcknowledgementDM, trackOutboundMessage, hr, Except.map, backoffDelay]
  · intro env igId tokenPlain db rid h1 hfresh
    have hr := runAttempts_succ1 env.sendDM db.outbound.length
      "Failed to send verification DM after retries" db db.outbound
      ⟨db.outbound.length, igId, "verification",
        verificationMessageText env.baseUrl igId tokenPlain, "pending", 0, none, none⟩
      hfresh rfl rid h1
    simp [sendVerificationDM, trackOutboundMessage, hr, Except.map]
  · intro env igId tokenPlain db e1 rid h1 h2 hfresh
    have hr := runAttempts_succ2 env.sendDM db.outbound.length
      "Failed to send verification DM after retries" db db.outbound
      ⟨db.outbound.length, igId, "verification",
        verificationMessageText env.baseUrl igId tokenPlain, "pending", 0, none, none⟩
      hfresh rfl e1 rid h1 h2
    simp [sendVerificationDM, trackOutboundMessage, hr, Except.map, backoffDelay]
  · intro env igId tokenPlain db e1 e2 rid h1 h2 h3 hfresh
    have hr := runAttempts_succ3 env.sendDM db.outbound.length
      "Failed to send verification DM after retries" db db.outbound
      ⟨db.outbound.length, igId, "verification",
        verificationMessageText env.baseUrl igId tokenPlain, "pending", 0, none, none⟩
      hfresh rfl e1 e2 rid h1 h2 h3
    simp [sendVerificationDM, trackOutboundMessage, hr, Except.map, backoffDelay]
  · intro env igId db rid h1 hfresh
    have hr := runAttempts_succ1 env.sendDM db.outbound.length
      "Failed to send acknowledgement DM after retries" db db.outbound
      ⟨db.outbound.length, igId, "acknowledgement",
        acknowledgementMessageText, "pending", 0, none, none⟩
      hfresh rfl rid h1
    simp [sendAcknowledgementDM, trackOutboundMessage, hr, Except.map]

/-- C3 witness. -/
theorem sendWithRetry_spec_witness :
    sendVerificationDM ⟨0, "b", [], fun _ => .error "boom"⟩ "U1" "tok"
        ⟨[], [], [], [], []⟩ =
      (.error "boom",
       ⟨[], [], [],
        [{ id := 0
           recipient_ig_id := "U1"
           kind := "verification"
           payload := verificationMessageText "b" "U1" "tok"
           status := "failed"
           attempts := 3
           remote_message_id := none
           error := some "boom" }], []⟩,
       [1000, 2000]) :=
  sendWithRetry_spec.1 ⟨0, "b", [], fun _ => .error "boom"⟩ "U1" "tok"
    ⟨[], [], [], [], []⟩ "boom" "boom" "boom" rfl rfl rfl (by simp)

/-! ## Message-store and orchestrator lemmas (C1, C4, C10). -/

theorem filter_length_map_preserve {α : Type} (l : List α) (f : α → α) (p : α → Bool)
    (h : ∀ x, p (f x) = p x) : ((l.map f).filter p).length = (l.filter p).length := by
  induction l with
  | nil => rfl
  | cons a t ih =>
    rw [List.map_cons, List.filter_cons, List.filter_cons, h a]
    by_cases hp : p a = true
    · simp [hp, ih]
    · simp [hp, ih]

theorem mark_fields (midP : String) (db : DB) :
    (markMessageAsProcessed midP db).profiles = db.profiles ∧
    (markMessageAsProcessed midP db).tokens = db.tokens ∧
    (markMessageAsProcessed midP db).outbound = db.outbound ∧
    (markMessageAsProcessed midP db).media = db.media := by
  simp [markMessageAsProcessed]

theorem msgCount_mark (mid midP : String) (db : DB) :
    msgCount (markMessageAsProcessed midP db) mid = msgCount db mid := by
  show ((db.messages.map _).filter _).length = _
  exact filter_length_map_preserve db.messages _ _ (fun x => by
    by_cases h : x.id == midP <;> simp [h])

theorem mark_mem_processed (midP : String) (db : DB) :
    ∀ m ∈ (markMessageAsProcessed midP db).messages, m.id = midP → m.processed = true := by
  intro m hm hid
  unfold markMessageAsProcessed at hm
  simp only [List.mem_map] at hm
  obtain ⟨q, hq, heq⟩ := hm
  by_cases h : q.id == midP
  · simp only [if_pos h] at heq
    rw [← heq]
  · simp only [if_neg h] at heq
    rw [← heq] at hid
    exact absurd (beq_iff_eq.mpr hid) (by simpa using h)

theorem mark_mem_src (midP : String) (db : DB) :
    ∀ m ∈ (markMessageAsProcessed midP db).messages,
      m ∈ db.messages ∨ m.processed = true := by
  intro m hm
  unfold markMessageAsProcessed at hm
  simp only [List.mem_map] at hm
  obtain ⟨q, hq, heq⟩ := hm
  by_cases h : q.id == midP
  · simp only [if_pos h] at heq
    right
    rw [← heq]
  · simp only [if_neg h] at heq
    left
    rw [← heq]
    exact hq

/-- `insertMessageIfNotExists` on a store carrying at most one row for the
`mid` succeeds, changes nothing but `messages`, leaves exactly one row keyed
`mid`, and any row of the result is a pre-existing row or the freshly
inserted not-yet-processed one. -/
theorem insertMessage_spec (mid s rc : String) (txt : Option String) (att : Option JsValue)
    (ts : String) (db : DB) (ms : Int) (hts : timestampToMs ts = some ms)
    (hcnt : msgCount db mid ≤ 1) :
    ∃ r db1, insertMessageIfNotExists mid s rc txt att ts db = .ok (r, db1) ∧
      db1.profiles = db.profiles ∧ db1.tokens = db.tokens ∧ db1.outbound = db.outbound ∧
      db1.media = db.media ∧ msgCount db1 mid = 1 ∧ r.id = mid ∧
      (∀ m ∈ db1.messages, m ∈ db.messages ∨ (m.id = mid ∧ m.processed = false)) := by
  by_cases hemp : (db.messages.filter (fun r => r.id == mid)).isEmpty
  · have hfil : db.messages.filter (fun r => r.id == mid) = [] := by
      simpa [List.isEmpty_iff] using hemp
    refine ⟨⟨mid, s, rc, txt, att, ms.toNat, false⟩,
      { db with messages := db.messages ++ [⟨mid, s, rc, txt, att, ms.toNat, false⟩] },
      ?_, rfl, rfl, rfl, rfl, ?_, rfl, ?_⟩
    · simp [insertMessageIfNotExists, hts, hemp]
    · unfold msgCount
      simp [List.filter_append, hfil]
    · intro m hm
      simp only [List.mem_append, List.mem_singleton] at hm
      rcases hm with h | h
      · exact Or.inl h
      · subst h
        exact Or.inr ⟨rfl, rfl⟩
  · unfold msgCount at hcnt
    have hne : (db.messages.filter (fun r => r.id == mid)).length ≠ 0 := by
      intro h0
      exact hemp (by simpa [List.isEmpty_iff, List.length_eq_zero] using h0)
    have hlen : (db.messages.filter (fun r => r.id == mid)).length = 1 := by omega
    obtain ⟨r0, hfil⟩ := List.length_eq_one.mp hlen
    have hmemf : r0 ∈ db.messages ∧ (r0.id == mid) = true := by
      have : r0 ∈ db.messages.filter (fun r => r.id == mid) := by
        rw [hfil]
        exact List.mem_singleton_self r0
      simpa using List.mem_filter.mp this
    refine ⟨r0, db, ?_, rfl, rfl, rfl, rfl, ?_, beq_iff_eq.mp hmemf.2, ?_⟩
    · simp [insertMessageIfNotExists, hts, hemp, hfil]
    · unfold msgCount
      simp [hfil]
    · intro m hm
      exact Or.inl hm

/-- The orchestrator on the unverified branch: it succeeds with the
unconnected-user report, stores no media, leaves exactly one message row
keyed by the event's `mid`, and every message row afterwards is a
pre-existing row or the fresh one with `processed = false` — it never marks
anything processed. -/
theorem handle_spec_unverified (phase3 : MessageRow → InstagramProfileRow → Phase3Result)
    (sha : String → String) (env : Env) (e : IncomingMessagingEvent) (db : DB) (ms : Int)
    (hts : timestampToMs e.timestamp = some ms) (hcnt : msgCount db e.mid ≤ 1)
    (hconn : connectedUserOf db e.sender_ig_id = none) :
    ∃ db', handleIncomingMessagingEventWith phase3 sha env e db =
        .ok ({ success := true, message := some "Verification DM sent to unconnected user" },
             db') ∧
      db'.media = db.media ∧ msgCount db' e.mid = 1 ∧
      (∀ m ∈ db'.messages, m ∈ db.messages ∨ (m.id = e.mid ∧ m.processed = false)) := by
  have hu := upsert_fields env e.sender_ig_id ⟨none, none, none⟩ db
  have hcnt' :
      msgCount (upsertInstagramProfile env e.sender_ig_id ⟨none, none, none⟩ db).2 e.mid ≤ 1 := by
    unfold msgCount
    rw [hu.1]
    exact hcnt
  obtain ⟨r, db1, hins, hpr, htok, houtb, hmed, hcnt1, hrid, hmem⟩ :=
    insertMessage_spec e.mid e.sender_ig_id e.recipient_ig_id (orNullStr e.message_text)
      (orNullJs e.attachments) e.timestamp _ ms hts hcnt'
  have hconn' :
      (upsertInstagramProfile env e.sender_ig_id ⟨none, none, none⟩ db).1.connected_user_id =
        none := by
    rw [upsert_connected]
    exact hconn
  have hsv := sendVerificationDM_fields env e.sender_ig_id
    (createVerificationToken sha env e.sender_ig_id e.mid db1).1.tokenPlain
    (createVerificationToken sha env e.sender_ig_id e.mid db1).2
  have hct := createToken_fields sha env e.sender_ig_id e.mid db1
  refine ⟨(sendVerificationDM env e.sender_ig_id
      (createVerificationToken sha env e.sender_ig_id e.mid db1).1.tokenPlain
      (createVerificationToken sha env e.sender_ig_id e.mid db1).2).2.1, ?_, ?_, ?_, ?_⟩
  · simp only [handleIncomingMessagingEventWith, hins, hconn']
  · rw [hsv.2.2.2, hct.2.2.2, hmed, hu.2.2.2]
  · unfold msgCount
    rw [hsv.1, hct.1]
    unfold msgCount at hcnt1
    exact hcnt1
  · intro m hm
    rw [hsv.1, hct.1] at hm
    rcases hmem m hm with h | h
    · rw [hu.1] at h
      exact Or.inl h
    · exact Or.inr h

/-- The orchestrator on the verified branch, with a hand-off reporting the
constant outcome `b`: it succeeds with the connected-user report, stores no
media, leaves exactly one message row keyed by the event's `mid`; when the
hand-off reports ok every row keyed `mid` ends `processed = true`, and when
it reports not-ok every row keyed `mid` stays `processed = false` (provided
it started so). -/
theorem handle_spec_connected (b : Bool) (sha : String → String) (env : Env)
    (e : IncomingMessagingEvent) (db : DB) (ms : Int) (u : String)
    (hts : timestampToMs e.timestamp = some ms) (hcnt : msgCount db e.mid ≤ 1)
    (hconn : connectedUserOf db e.sender_ig_id = some u) :
    ∃ db', handleIncomingMessagingEventWith (fun _ _ => ⟨b⟩) sha env e db =
        .ok ({ success := true, message := some "Message processed for connected user" },
             db') ∧
      db'.media = db.media ∧ msgCount db' e.mid = 1 ∧
      (b = true → ∀ m ∈ db'.messages, m.id = e.mid → m.processed = true) ∧
      (b = false → (∀ m ∈ db.messages, m.id = e.mid → m.processed = false) →
        ∀ m ∈ db'.messages, m.id = e.mid → m.processed = false) := by
  have hu := upsert_fields env e.sender_ig_id ⟨none, none, none⟩ db
  have hcnt' :
      msgCount (upsertInstagramProfile env e.sender_ig_id ⟨none, none, none⟩ db).2 e.mid ≤ 1 := by
    unfold msgCount
    rw [hu.1]
    exact hcnt
  obtain ⟨r, db1, hins, hpr, htok, houtb, hmed, hcnt1, hrid, hmem⟩ :=
    insertMessage_spec e.mid e.sender_ig_id e.recipient_ig_id (orNullStr e.message_text)
      (orNullJs e.attachments) e.timestamp _ ms hts hcnt'
  have hconn' :
      (upsertInstagramProfile env e.sender_ig_id ⟨none, none, none⟩ db).1.connected_user_id =
        some u := by
    rw [upsert_connected]
    exact hconn
  have hsa := sendAcknowledgementDM_fields env e.sender_ig_id db1
  cases b with
  | true =>
    have hmk := mark_fields e.mid (sendAcknowledgementDM env e.sender_ig_id db1).2.1
    refine ⟨markMessageAsProcessed e.mid (sendAcknowledgementDM env e.sender_ig_id db1).2.1,
      ?_, ?_, ?_, ?_, ?_⟩
    · simp only [handleIncomingMessagingEventWith, hins, hconn']
      rfl
    · rw [hmk.2.2.2, hsa.2.2.2, hmed, hu.2.2.2]
    · rw [msgCount_mark]
      unfold msgCount
      rw [hsa.1]
      unfold msgCount at hcnt1
      exact hcnt1
    · intro _ m hm hid
      exact mark_mem_processed e.mid _ m hm hid
    · intro hb
      exact absurd hb (by simp)
  | false =>
    refine ⟨(sendAcknowledgementDM env e.sender_ig_id db1).2.1, ?_, ?_, ?_, ?_, ?_⟩
    · simp only [handleIncomingMessagingEventWith, hins, hconn']
      rfl
    · rw [hsa.2.2.2, hmed, hu.2.2.2]
    · unfold msgCount
      rw [hsa.1]
      unfold msgCount at hcnt1
      exact hcnt1
    · intro hb
      exact absurd hb (by simp)
    · intro _ hproc m hm hid
      rw [hsa.1] at hm
      rcases hmem m hm with h | h
      · rw [hu.1] at h
        exact hproc m h hid
      · exact h.2

/-- The shipped orchestrator is the generic one with the always-ok stub. -/
theorem handle_concrete_eq (sha : String → String) (env : Env)
    (e : IncomingMessagingEvent) (db : DB) :
    handleIncomingMessagingEvent sha env e db =
      handleIncomingMessagingEventWith (fun _ _ => ⟨true⟩) sha env e db := rfl

/-- The orchestrator succeeds and leaves exactly one message row keyed by
the event's `mid`, on either branch. -/
theorem handle_ok_count (sha : String → String) (env : Env) (e : IncomingMessagingEvent)
    (db : DB) (ms : Int) (hts : timestampToMs e.timestamp = some ms)
    (hcnt : msgCount db e.mid ≤ 1) :
    ∃ res db', handleIncomingMessagingEvent sha env e db = .ok (res, db') ∧
      msgCount db' e.mid = 1 := by
  rw [handle_concrete_eq]
  cases hcu : connectedUserOf db e.sender_ig_id with
  | none =>
    obtain ⟨db', h1, _, h3, _⟩ :=
      handle_spec_unverified (fun _ _ => ⟨true⟩) sha env e db ms hts hcnt hcu
    exact ⟨_, db', h1, h3⟩
  | some u =>
    obtain ⟨db', h1, _, h3, _, _⟩ :=
      handle_spec_connected true sha env e db ms u hts hcnt hcu
    exact ⟨_, db', h1, h3⟩

/-! ## C1 — idempotent message persistence. -/

/-- C1: inserting a message whose `mid` already has its (unique) row
resolves to that existing row with the store unchanged — no error, no second
row; consequently handling the same event twice (under any environments)
succeeds both times and leaves exactly one `messages` row keyed by the
event's `mid`. -/
theorem message_idempotency :
    (∀ (mid s rc : String) (txt : Option String) (att : Option JsValue) (ts : String)
        (db : DB) (ms : Int) (r : MessageRow),
      timestampToMs ts = some ms →
      db.messages.filter (fun q => q.id == mid) = [r] →
      insertMessageIfNotExists mid s rc txt att ts db = .ok (r, db)) ∧
    (∀ (sha : String → String) (env1 env2 : Env) (e : IncomingMessagingEvent) (db : DB)
        (ms : Int),
      timestampToMs e.timestamp = some ms → msgCount db e.mid ≤ 1 →
      ∃ res1 db1 res2 db2,
        handleIncomingMessagingEvent sha env1 e db = .ok (res1, db1) ∧
        handleIncomingMessagingEvent sha env2 e db1 = .ok (res2, db2) ∧
        msgCount db2 e.mid = 1) := by
  constructor
  · intro mid s rc txt att ts db ms r hts hfil
    have hemp : (db.messages.filter (fun q => q.id == mid)).isEmpty = false := by
      rw [hfil]
      rfl
    simp [insertMessageIfNotExists, hts, hfil, hemp]
  · intro sha env1 env2 e db ms hts hcnt
    obtain ⟨res1, db1, h1, hc1⟩ := handle_ok_count sha env1 e db ms hts hcnt
    obtain ⟨res2, db2, h2, hc2⟩ := handle_ok_count sha env2 e db1 ms hts (le_of_eq hc1)
    exact ⟨res1, db1, res2, db2, h1, h2, hc2⟩

/-- C1 witness. -/
theorem message_idempotency_witness :
    ∃ res1 db1 res2 db2,
      handleIncomingMessagingEvent (fun s => s)
        ⟨1700000000000, "b", [], fun _ => .error "x"⟩
        ⟨"M1", "U1", "P1", "1700000000000", none, none⟩ ⟨[], [], [], [], []⟩ =
        .ok (res1, db1) ∧
      handleIncomingMessagingEvent (fun s => s)
        ⟨1700000000500, "b", [], fun _ => .error "y"⟩
        ⟨"M1", "U1", "P1", "1700000000000", none, none⟩ db1 = .ok (res2, db2) ∧
      msgCount db2 "M1" = 1 :=
  message_idempotency.2 (fun s => s)
    ⟨1700000000000, "b", [], fun _ => .error "x"⟩
    ⟨1700000000500, "b", [], fun _ => .error "y"⟩
    ⟨"M1", "U1", "P1", "1700000000000", none, none⟩ ⟨[], [], [], [], []⟩
    1700000000000 (by decide) (by decide)

/-! ## C4 — branch correctness of the orchestrator. -/

/-- C4: for an unlinked profile the orchestrator never marks any message
`processed = true` (every resulting row is a pre-existing one or the fresh
row with `processed = false`) and performs no media extraction or storage
(the media table is untouched); for a linked profile, with the hand-off
reporting `{ok := b}`, the rows keyed by the event's `mid` end
`processed = true` exactly when `b = true`, and stay `processed = false`
when `b = false` (given they started unprocessed). -/
theorem handle_branch_correctness :
    (∀ (b : Bool) (sha : String → String) (env : Env) (e : IncomingMessagingEvent)
        (db : DB) (ms : Int),
      timestampToMs e.timestamp = some ms → msgCount db e.mid ≤ 1 →
      connectedUserOf db e.sender_ig_id = none →
      ∃ db', handleIncomingMessagingEventWith (fun _ _ => ⟨b⟩) sha env e db =
          .ok ({ success := true, message := some "Verification DM sent to unconnected user" },
               db') ∧
        db'.media = db.media ∧
        (∀ m ∈ db'.messages, m ∈ db.messages ∨ (m.id = e.mid ∧ m.processed = false))) ∧
    (∀ (b : Bool) (sha : String → String) (env : Env) (e : IncomingMessagingEvent)
        (db : DB) (ms : Int) (u : String),
      timestampToMs e.timestamp = some ms → msgCount db e.mid ≤ 1 →
      connectedUserOf db e.sender_ig_id = some u →
      ∃ db', handleIncomingMessagingEventWith (fun _ _ => ⟨b⟩) sha env e db =
          .ok ({ success := true, message := some "Message processed for connected user" },
               db') ∧
        db'.media = db.media ∧
        (b = true → ∀ m ∈ db'.messages, m.id = e.mid → m.processed = true) ∧
        (b = false → (∀ m ∈ db.messages, m.id = e.mid → m.processed = false) →
          ∀ m ∈ db'.messages, m.id = e.mid → m.processed = false)) := by
  constructor
  · intro b sha env e db ms hts hcnt hconn
    obtain ⟨db', h1, h2, _, h4⟩ :=
      handle_spec_unverified (fun _ _ => ⟨b⟩) sha env e db ms hts hcnt hconn
    exact ⟨db', h1, h2, h4⟩
  · intro b sha env e db ms u hts hcnt hconn
    obtain ⟨db', h1, h2, _, h4, h5⟩ :=
      handle_spec_connected b sha env e db ms u hts hcnt hconn
    exact ⟨db', h1, h2, h4, h5⟩

/-- C4 witness. -/
theorem handle_branch_correctness_witness :
    ∃ db', handleIncomingMessagingEventWith (fun _ _ => ⟨false⟩) (fun s => s)
        ⟨1700000000000, "b", [], fun _ => .error "x"⟩
        ⟨"M1", "U1", "P1", "1700000000000", none, none⟩ ⟨[], [], [], [], []⟩ =
        .ok ({ success := true, message := some "Verification DM sent to unconnected user" },
             db') ∧
      db'.media = [] ∧
      (∀ m ∈ db'.messages, m ∈ ([] : List MessageRow) ∨
        (m.id = "M1" ∧ m.processed = false)) :=
  handle_branch_correctness.1 false (fun s => s)
    ⟨1700000000000, "b", [], fun _ => .error "x"⟩
    ⟨"M1", "U1", "P1", "1700000000000", none, none⟩ ⟨[], [], [], [], []⟩
    1700000000000 (by decide) (by decide) (by decide)

/-! ## C10 — the Phase 3 stub always reports ok. -/

/-- C10: `enqueueForPhase3Processing` returns `{ok := true}` for every
input, so in the shipped orchestrator the not-ok path is unreachable: every
connected-user event whose mandatory persistence steps succeed ends with
the message rows keyed by its `mid` marked `processed = true`. -/
theorem phase3_stub_spec :
    (∀ (m : MessageRow) (p : InstagramProfileRow),
      enqueueForPhase3Processing m p = { ok := true }) ∧
    (∀ (sha : String → String) (env : Env) (e : IncomingMessagingEvent) (db : DB)
        (ms : Int) (u : String),
      timestampToMs e.timestamp = some ms → msgCount db e.mid ≤ 1 →
      connectedUserOf db e.sender_ig_id = some u →
      ∃ db', handleIncomingMessagingEvent sha env e db =
          .ok ({ success := true, message := some "Message processed for connected user" },
               db') ∧
        ∀ m ∈ db'.messages, m.id = e.mid → m.processed = true) := by
  refine ⟨fun m p => rfl, ?_⟩
  intro sha env e db ms u hts hcnt hconn
  obtain ⟨db', h1, _, _, h4, _⟩ := handle_spec_connected true sha env e db ms u hts hcnt hconn
  rw [handle_concrete_eq]
  exact ⟨db', h1, h4 rfl⟩

/-- C10 witness. -/
theorem phase3_stub_spec_witness :
    ∃ db', handleIncomingMessagingEvent (fun s => s)
        ⟨1700000000000, "b", [], fun _ => .ok "rm"⟩
        ⟨"M1", "U1", "P1", "1700000000000", none, none⟩
        ⟨[⟨"U1", none, none, none, some "user-7", some 5, 1, 1⟩], [], [], [], []⟩ =
        .ok ({ success := true, message := some "Message processed for connected user" },
             db') ∧
      ∀ m ∈ db'.messages, m.id = "M1" → m.processed = true :=
  phase3_stub_spec.2 (fun s => s)
    ⟨1700000000000, "b", [], fun _ => .ok "rm"⟩
    ⟨"M1", "U1", "P1", "1700000000000", none, none⟩
    ⟨[⟨"U1", none, none, none, some "user-7", some 5, 1, 1⟩], [], [], [], []⟩
    1700000000000 "user-7" (by decide) (by decide) (by decide)

/-! ## C2 — the orchestrator never invokes media extraction or storage. -/

/-- C2 (divergence evidence): for a connected profile and an event carrying
a valid `ig_reel` attachment, the shipped orchestrator succeeds but leaves
the media table empty, even though `extractMediaFromAttachments` recognizes
the attachment and `storeMediaItems` — which no code calls — would have
persisted it for the connected user.  `handleIncomingMessagingEvent` has no
call to either. -/
theorem handle_never_stores_media :
    ∃ res db',
      handleIncomingMessagingEvent (fun s => s)
        ⟨1700000000000, "b", [], fun _ => .ok "rm"⟩
        ⟨"M1", "U1", "P1", "1700000000000", none,
         some (.arr [.obj [("type", .str "ig_reel"),
           ("payload", .obj [("reel_video_id", .str "R1"),
             ("url", .str "https://cdn.example/r1.mp4"), ("title", .str "T")])]])⟩
        ⟨[⟨"U1", none, none, none, some "user-7", some 5, 1, 1⟩], [], [], [], []⟩ =
        .ok (res, db') ∧
      db'.media = [] ∧
      extractMediaFromAttachments
        (.arr [.obj [("type", .str "ig_reel"),
          ("payload", .obj [("reel_video_id", .str "R1"),
            ("url", .str "https://cdn.example/r1.mp4"), ("title", .str "T")])]]) =
        [{ media_type := "reel", media_id := "R1", url := "https://cdn.example/r1.mp4",
           title := some "T" }] ∧
      (storeMediaItems
        ⟨"M1", "U1", "P1", "1700000000000", none,
         some (.arr [.obj [("type", .str "ig_reel"),
           ("payload", .obj [("reel_video_id", .str "R1"),
             ("url", .str "https://cdn.example/r1.mp4"), ("title", .str "T")])]])⟩
        ⟨"U1", none, none, none, some "user-7", some 5, 1, 1⟩ db').media ≠ [] := by
  obtain ⟨db', h1, h2, _, _, _⟩ := handle_spec_connected true (fun s => s)
    ⟨1700000000000, "b", [], fun _ => .ok "rm"⟩
    ⟨"M1", "U1", "P1", "1700000000000", none,
     some (.arr [.obj [("type", .str "ig_reel"),
       ("payload", .obj [("reel_video_id", .str "R1"),
         ("url", .str "https://cdn.example/r1.mp4"), ("title", .str "T")])]])⟩
    ⟨[⟨"U1", none, none, none, some "user-7", some 5, 1, 1⟩], [], [], [], []⟩
    1700000000000 "user-7" (by decide) (by decide) (by decide)
  have hmedia : db'.media = [] := h2
  refine ⟨{ success := true, message := some "Message processed for connected user" },
    db', ?_, hmedia, by decide, ?_⟩
  · rw [handle_concrete_eq]
    exact h1
  · simp [storeMediaItems, extractMediaFromAttachments, extractMediaList, isArray, elemsOf,
      jsGetOpt, lookupField, truthy, strictEqStr, titleOf, jsToString, hmedia]

end Reeva
